import Mathlib

set_option maxRecDepth 4000

/-!
Verification development for the claude-afk coordination daemon.

This file gives a shallow embedding, in Lean, of the state-mutating core of
the daemon (`scripts/daemon/index.js`, here `part_010`), of its session
registry (`scripts/daemon/sessions.js`), of the Telegram adapter
(`scripts/daemon/telegram.js`) and of the transcript probe
(`scripts/daemon/transcript.js`), together with theorems settling the
frozen claims about that code.

Modelling conventions:
* JavaScript plain objects used as string-keyed dictionaries become
  association lists (`JMap`); property insertion keeps an existing key in
  place and appends a fresh key at the end, matching JS enumeration order.
* JS `Map` keys compare with SameValueZero, so a map keyed sometimes by the
  number `100` and sometimes by the string `"100"` distinguishes the two;
  the key type `MKey` (numbers and strings) keeps that distinction.
* Records with optional fields become structures of `Option`s; `undefined`
  is `none`, and `a === b` on possibly-undefined strings is `jsEqOptStr`.
* File reads are modelled by passing the parsed file contents as values;
  a read error is an absent entry of the file table.
* Network and IPC effects are collected in an ordered `List Action`.
* Wall-clock seconds are rationals (`Date.now() / 1000` in the source).
-/

namespace Afk

/-- Association list with JavaScript object/Map semantics (first binding of a
key is the binding; operations below keep at most one binding per key). -/
abbrev JMap (K V : Type) := List (K × V)

/-- Property read: `obj[k]`, `undefined` as `none`. -/
def jget {K V : Type} [DecidableEq K] : JMap K V → K → Option V
  | [], _ => none
  | (k', v) :: rest, k => if k = k' then some v else jget rest k

/-- Property write `obj[k] = v`: updates an existing key in place, otherwise
appends the new key (JS insertion order). -/
def jset {K V : Type} [DecidableEq K] : JMap K V → K → V → JMap K V
  | [], k, v => [(k, v)]
  | (k', v') :: rest, k, v =>
    if k = k' then (k', v) :: rest else (k', v') :: jset rest k v

/-- `delete obj[k]`. -/
def jdel {K V : Type} [DecidableEq K] : JMap K V → K → JMap K V
  | [], _ => []
  | (k', v') :: rest, k => if k = k' then rest else (k', v') :: jdel rest k

/-- `Object.keys(obj)`. -/
def jkeys {K V : Type} (m : JMap K V) : List K := m.map Prod.fst

theorem jget_jset_self {K V : Type} [DecidableEq K] (m : JMap K V) (k : K) (v : V) :
    jget (jset m k v) k = some v := by
  induction m with
  | nil => simp [jget, jset]
  | cons hd tl ih =>
    obtain ⟨k', v'⟩ := hd
    by_cases h : k = k' <;> simp [jget, jset, h, ih]

theorem jget_jset_ne {K V : Type} [DecidableEq K] (m : JMap K V) (k k' : K) (v : V)
    (h : k' ≠ k) : jget (jset m k v) k' = jget m k' := by
  induction m with
  | nil => simp [jget, jset, h]
  | cons hd tl ih =>
    obtain ⟨k0, v0⟩ := hd
    by_cases hk : k = k0
    · subst hk
      simp [jget, jset, h]
    · by_cases hk' : k' = k0 <;> simp [jget, jset, hk, hk', ih]

theorem mem_of_jget_eq_some {K V : Type} [DecidableEq K] {m : JMap K V} {k : K} {v : V}
    (h : jget m k = some v) : (k, v) ∈ m := by
  induction m with
  | nil => simp [jget] at h
  | cons hd tl ih =>
    obtain ⟨k0, v0⟩ := hd
    by_cases hk : k = k0
    · subst hk
      simp [jget] at h
      simp [h]
    · simp [jget, hk] at h
      exact List.mem_cons_of_mem _ (ih h)

theorem mem_jset {K V : Type} [DecidableEq K] {m : JMap K V} {k : K} {v : V}
    {p : K × V} (h : p ∈ jset m k v) : p ∈ m ∨ p = (k, v) := by
  induction m with
  | nil => simp [jset] at h; simp [h]
  | cons hd tl ih =>
    obtain ⟨k0, v0⟩ := hd
    by_cases hk : k = k0
    · subst hk
      simp [jset] at h
      rcases h with h | h
      · subst h; right; rfl
      · left; exact List.mem_cons_of_mem _ h
    · simp [jset, hk] at h
      rcases h with h | h
      · subst h; left; simp
      · rcases ih h with h' | h'
        · left; exact List.mem_cons_of_mem _ h'
        · right; exact h'

theorem mem_jdel {K V : Type} [DecidableEq K] {m : JMap K V} {k : K}
    {p : K × V} (h : p ∈ jdel m k) : p ∈ m := by
  induction m with
  | nil => simp [jdel] at h
  | cons hd tl ih =>
    obtain ⟨k0, v0⟩ := hd
    by_cases hk : k = k0
    · subst hk
      simp [jdel] at h
      exact List.mem_cons_of_mem _ h
    · simp [jdel, hk] at h
      rcases h with h | h
      · subst h; simp
      · exact List.mem_cons_of_mem _ (ih h)

/-- A JS `Map` key as used by the daemon: Telegram message ids arrive as
numbers, the persisted dual index stores them as strings, and `Map` lookup
(SameValueZero) never identifies the two. -/
inductive MKey
  | num (n : Int)
  | str (s : String)
deriving DecidableEq, Repr

/-- `String(x)` for the two key shapes (used by `String(messageId)`). -/
def MKey.jsString : MKey → String
  | .num n => toString n
  | .str s => s

/-- Strict equality `a === b` on possibly-undefined strings
(`undefined === undefined` is `true`). -/
def jsEqOptStr : Option String → Option String → Bool
  | some a, some b => a == b
  | none, none => true
  | _, _ => false

/-- JS whitespace (the characters `trim()` strips that occur here). -/
def isJsSpace (c : Char) : Bool :=
  c = ' ' || c = '\t' || c = '\n' || c = '\r' || c = Char.ofNat 11 ||
    c = Char.ofNat 12 || c = Char.ofNat 160

/-- `s.trim()` (structural, so it evaluates by kernel reduction). -/
def jsTrim (s : String) : String :=
  String.mk (((s.data.dropWhile isJsSpace).reverse.dropWhile isJsSpace).reverse)

/-- `s.toLowerCase()` restricted to ASCII lowering (it agrees with the
source on the alphanumerics that matter downstream). -/
def jsToLower (s : String) : String := String.mk (s.data.map Char.toLower)

/-- Digit-string value, `none` when empty or not all digits. -/
def digitsNat? (cs : List Char) : Option Nat :=
  match cs with
  | [] => none
  | _ => go cs 0
where
  go : List Char → Nat → Option Nat
    | [], acc => some acc
    | c :: rest, acc =>
      if c.isDigit then go rest (acc * 10 + (c.toNat - 48)) else none

/-- `haystack.startsWith(needle)` over char lists. -/
def charsStartWith : List Char → List Char → Bool
  | _, [] => true
  | [], _ :: _ => false
  | a :: as, b :: bs => a == b && charsStartWith as bs

/-- `haystack.includes(needle)`. -/
def charsContain : List Char → List Char → Bool
  | [], needle => needle.isEmpty
  | h :: t, needle => charsStartWith (h :: t) needle || charsContain t needle

/-- `haystack.includes(needle)` on strings. -/
def strIncludes (haystack needle : String) : Bool :=
  charsContain haystack.data needle.data

/-- `s.substring(0, n)` (code units become chars in this model). -/
def jsSubstring0 (s : String) (n : Nat) : String := String.mk (s.data.take n)

/-- Truthiness of an optional string (`undefined` and `''` are falsy). -/
def truthyStr : Option String → Bool
  | some s => !s.isEmpty
  | none => false

/-- Truthiness of an optional number (`undefined`, `null` and `0` are falsy). -/
def truthyInt : Option Int → Bool
  | some n => n != 0
  | none => false

/-- `a || b` on an optional string operand with a string default. -/
def jsOrStr (a : Option String) (b : String) : String :=
  match a with
  | some s => if s.isEmpty then b else s
  | none => b

/-- `Number(s)` restricted to the integer-literal strings that occur as
stringified Telegram message ids; other strings give `none` (NaN, which
matches no Map key). -/
def jsNumber? (s : String) : Option Int :=
  match s.data with
  | '-' :: rest => (digitsNat? rest).map (fun n => -(n : Int))
  | l => (digitsNat? l).map (fun n => (n : Int))

/-- `path.basename(p)` for the paths the daemon passes it (last non-empty
`/`-separated segment; degenerate inputs are approximated). -/
def splitSegs : List Char → List (List Char)
  | [] => [[]]
  | c :: rest =>
    let r := splitSegs rest
    if c = '/' then [] :: r
    else
      match r with
      | h :: t => (c :: h) :: t
      | [] => [[c]]

def basename (p : String) : String :=
  match ((splitSegs p.data).filter (fun seg => !seg.isEmpty)).getLast? with
  | some seg => String.mk seg
  | none => if p.isEmpty then "" else "/"

/-- A JSON-ish value for tool inputs parsed from the transcript. -/
inductive JVal
  | jstr (s : String)
  | jnum (n : Int)
  | jbool (b : Bool)
  | jnull
  | jarr (xs : List JVal)
  | jobj (fields : List (String × JVal))

/-- JS truthiness of a `JVal` (objects and arrays are always truthy). -/
def JVal.truthy : JVal → Bool
  | .jstr s => !s.isEmpty
  | .jnum n => n != 0
  | .jbool b => b
  | .jnull => false
  | .jarr _ => true
  | .jobj _ => true

/-- Minimal JSON string escaping as done by `JSON.stringify` for the
characters that occur in practice. -/
def jsonEscape (s : String) : String :=
  String.join (s.data.map (fun c =>
    if c = '"' then "\\\""
    else if c = '\\' then "\\\\"
    else if c = '\n' then "\\n"
    else if c = '\t' then "\\t"
    else if c = '\r' then "\\r"
    else String.mk [c]))

mutual

/-- `JSON.stringify(v)` (compact form). -/
def jstringify : JVal → String
  | .jstr s => "\"" ++ jsonEscape s ++ "\""
  | .jnum n => toString n
  | .jbool b => if b then "true" else "false"
  | .jnull => "null"
  | .jarr xs => "[" ++ jstringifyList xs ++ "]"
  | .jobj fs => "\x7b" ++ jstringifyFields fs ++ "\x7d"

def jstringifyList : List JVal → String
  | [] => ""
  | [x] => jstringify x
  | x :: y :: xs => jstringify x ++ "," ++ jstringifyList (y :: xs)

def jstringifyFields : List (String × JVal) → String
  | [] => ""
  | [(k, v)] => "\"" ++ jsonEscape k ++ "\":" ++ jstringify v
  | (k, v) :: f :: fs =>
    "\"" ++ jsonEscape k ++ "\":" ++ jstringify v ++ "," ++ jstringifyFields (f :: fs)

end

mutual

/-- Template-literal conversion `String(v)` of a `JVal`. -/
def jsDisplay : JVal → String
  | .jstr s => s
  | .jnum n => toString n
  | .jbool b => if b then "true" else "false"
  | .jnull => "null"
  | .jarr xs => jsDisplayList xs
  | .jobj _ => "[object Object]"

def jsDisplayList : List JVal → String
  | [] => ""
  | [x] => jsDisplay x
  | x :: y :: xs => jsDisplay x ++ "," ++ jsDisplayList (y :: xs)

end

/-- `obj.field || dflt` for a JSON object field rendered into a template. -/
def jfieldOr (fields : JMap String JVal) (name : String) (dflt : String) : String :=
  match jget fields name with
  | some v => if v.truthy then jsDisplay v else dflt
  | none => dflt

/-! ### Transcript probe (`scripts/daemon/transcript.js`)

A transcript value stands for the list of non-empty trimmed lines of the
JSONL file; a line is either malformed JSON (skipped by every scan) or a
parsed entry. -/

/-- One content block of a transcript entry. -/
inductive TBlock
  | text (t : String)
  | toolUse (id : Option String) (name : Option String) (input : Option (JMap String JVal))
  | toolResult (toolUseId : Option String) (isErrorTrue : Bool)
  | otherBlock

/-- `entry.message.content`: a string, an array of blocks, or some other
JSON value (treated as truthy; the sources only ever meet the first two). -/
inductive TContent
  | str (s : String)
  | blocks (bs : List TBlock)
  | otherVal

/-- Truthiness of a present `content` value (`''` is falsy, arrays truthy). -/
def TContent.truthy : TContent → Bool
  | .str s => !s.isEmpty
  | .blocks _ => true
  | .otherVal => true

/-- A parsed transcript entry (`type` and `message?.content`). -/
structure TEntry where
  etype : Option String
  content : Option TContent

/-- One non-empty transcript line. -/
inductive TLine
  | malformed
  | entry (e : TEntry)

abbrev Transcript := List TLine

/-- `text.substring(0, maxLength - 3) + '...'` applied when a `maxLength`
option is given (0 models a falsy/absent option, as in the source's
`options.maxLength &&` guard). -/
def truncateOpt (t : String) (maxLength : Nat) : String :=
  if maxLength ≠ 0 && decide (t.length > maxLength) then
    jsSubstring0 t (maxLength - 3) ++ "..."
  else t

/-- Joined text of the `text` blocks of an array content, `none` when there
are no text blocks (`textBlocks.length > 0` in the source). -/
def textOfBlocks (bs : List TBlock) : Option String :=
  let ts := bs.filterMap (fun b => match b with | .text t => some t | _ => none)
  if ts.isEmpty then none else some (String.intercalate "\n" ts)

/-- The text extracted from a content value, `none` when there is none. -/
def textOfContent : TContent → Option String
  | .str s => some s
  | .blocks bs => textOfBlocks bs
  | .otherVal => none

/-- Whether a line is an entry of the given type with a present, truthy
content; returns that content. -/
def lineContent (ty : String) : TLine → Option TContent
  | .malformed => none
  | .entry e =>
    if e.etype == some ty then
      match e.content with
      | some c => if c.truthy then some c else none
      | none => none
    else none

/-- Backward scan of `getLastClaudeMessage` / `getLastUserMessage` over the
reversed line list. -/
def lastTextAux (ty : String) (maxLength : Nat) : List TLine → Option String
  | [] => none
  | l :: rest =>
    match lineContent ty l with
    | some c =>
      match textOfContent c with
      | some t =>
        if !t.isEmpty && !(jsTrim t).isEmpty then some (truncateOpt t maxLength)
        else lastTextAux ty maxLength rest
      | none => lastTextAux ty maxLength rest
    | none => lastTextAux ty maxLength rest

/-- `getLastClaudeMessage(path, {maxLength})` on a readable transcript. -/
def getLastClaudeMessage (lines : Transcript) (maxLength : Nat) : Option String :=
  lastTextAux "assistant" maxLength lines.reverse

/-- `getLastUserMessage(path, {maxLength})` on a readable transcript. -/
def getLastUserMessage (lines : Transcript) (maxLength : Nat) : Option String :=
  lastTextAux "user" maxLength lines.reverse

/-- Result of `getLastToolUse`. -/
structure ToolUseInfo where
  id : Option String
  tool : Option String
  input : JMap String JVal

/-- Backward scan of a block array for its last `tool_use` block. -/
def lastToolUseBlock : List TBlock → Option ToolUseInfo
  | [] => none
  | b :: rest =>
    match lastToolUseBlock rest with
    | some r => some r
    | none =>
      match b with
      | .toolUse id name input => some ⟨id, name, input.getD []⟩
      | _ => none

/-- `getLastToolUse(path)` on a readable transcript. -/
def getLastToolUse (lines : Transcript) : Option ToolUseInfo :=
  (lines.reverse.filterMap (fun l =>
    match lineContent "assistant" l with
    | some (.blocks bs) => lastToolUseBlock bs
    | _ => none)).head?

/-- `getLineCount(path)` on a readable transcript. -/
def getLineCount (lines : Transcript) : Nat := lines.length

/-- Result record of `findToolResult`. -/
structure FindToolRes where
  found : Bool
  isError : Bool
  offset : Nat
deriving DecidableEq, Repr

/-- First `tool_result` block matching the tool-use id (strict `===` against
a possibly-undefined id on both sides). -/
def firstMatchingToolResult (tid : Option String) : List TBlock → Option Bool
  | [] => none
  | .toolResult bid isErr :: rest =>
    if jsEqOptStr bid tid then some isErr else firstMatchingToolResult tid rest
  | _ :: rest => firstMatchingToolResult tid rest

/-- The `tool_result` match of one line, if any. -/
def lineToolResult (tid : Option String) (l : TLine) : Option Bool :=
  match lineContent "user" l with
  | some (.blocks bs) => firstMatchingToolResult tid bs
  | _ => none

/-- Forward scan of `findToolResult` from absolute index `i` with the total
line count `total`. -/
def findToolResultAux (tid : Option String) (total : Nat) : List TLine → Nat → FindToolRes
  | [], _ => ⟨false, false, total⟩
  | l :: rest, i =>
    match lineToolResult tid l with
    | some isErr => ⟨true, isErr, i + 1⟩
    | none => findToolResultAux tid total rest (i + 1)

/-- `findToolResult(path, toolUseId, afterOffset)` on a readable transcript
(an `undefined` offset, as stored on exported registry records, never enters
the loop and reports not-found at end of file, like the source). -/
def findToolResult (lines : Transcript) (tid : Option String) (afterOffset : Option Nat) :
    FindToolRes :=
  match afterOffset with
  | none => ⟨false, false, lines.length⟩
  | some a => findToolResultAux tid lines.length (lines.drop a) a

/-- Result record of `findUserMessage`. -/
structure FindUserRes where
  found : Bool
  content : String
  offset : Nat
deriving DecidableEq, Repr

/-- Forward scan of `findUserMessage`: first user entry whose content is a
non-empty (after trim) string. -/
def findUserMessageAux (total : Nat) : List TLine → Nat → FindUserRes
  | [], _ => ⟨false, "", total⟩
  | l :: rest, i =>
    match lineContent "user" l with
    | some (.str s) =>
      if !(jsTrim s).isEmpty then ⟨true, s, i + 1⟩
      else findUserMessageAux total rest (i + 1)
    | _ => findUserMessageAux total rest (i + 1)

/-- `findUserMessage(path, afterOffset)` on a readable transcript. -/
def findUserMessage (lines : Transcript) (afterOffset : Option Nat) : FindUserRes :=
  match afterOffset with
  | none => ⟨false, "", lines.length⟩
  | some a => findUserMessageAux lines.length (lines.drop a) a

/-- `formatToolInput(toolName, toolInput)` (values rendered into the
template strings via `jsDisplay`; they are strings in practice). -/
def formatToolInput (toolName : Option String) (toolInput : Option (JMap String JVal)) :
    String :=
  match toolInput with
  | none => "(no details)"
  | some input =>
    match toolName with
    | some "Bash" => jfieldOr input "command" "(unknown command)"
    | some "Write" => "Write to " ++ jfieldOr input "file_path" "(unknown file)"
    | some "Edit" => "Edit " ++ jfieldOr input "file_path" "(unknown file)"
    | some "Read" => jfieldOr input "file_path" "(unknown file)"
    | some "Glob" => "Pattern: " ++ jfieldOr input "pattern" "(unknown)"
    | some "Grep" => "Search: " ++ jfieldOr input "pattern" "(unknown)"
    | some "WebFetch" => jfieldOr input "url" "(unknown URL)"
    | some "WebSearch" => jfieldOr input "query" "(unknown query)"
    | _ =>
      if (jkeys input).isEmpty then "(no details)"
      else
        let firstStr := input.filterMap (fun kv =>
          match kv.2 with
          | .jstr v => if (jsTrim v).isEmpty then none else some v
          | _ => none)
        match firstStr.head? with
        | some v => if v.length > 100 then jsSubstring0 v 97 ++ "..." else v
        | none => jsSubstring0 (jstringify (.jobj input)) 100

/-! ### Session registry (`scripts/daemon/sessions.js`) -/

/-- Lowercase ASCII letter or digit (the class `[a-z0-9]` of the source's
regexes, applied to the lowercased name). -/
def isSlugChar (c : Char) : Bool :=
  (97 ≤ c.toNat && c.toNat ≤ 122) || (48 ≤ c.toNat && c.toNat ≤ 57)

/-- `.replace(/[^a-z0-9]+/g, '-')`: each maximal run of non-alphanumeric
characters becomes a single dash. The flag tracks being inside such a run. -/
def replaceNonAlnumRuns : Bool → List Char → List Char
  | _, [] => []
  | inRun, c :: rest =>
    if isSlugChar c then c :: replaceNonAlnumRuns false rest
    else if inRun then replaceNonAlnumRuns true rest
    else '-' :: replaceNonAlnumRuns true rest

/-- The `replace` deleting the leading and trailing dash runs. -/
def stripEdgeDashes (cs : List Char) : List Char :=
  ((cs.dropWhile (· == '-')).reverse.dropWhile (· == '-')).reverse

/-- The `replace` collapsing every dash run to a single dash. -/
def collapseDashes : Bool → List Char → List Char
  | _, [] => []
  | prevDash, c :: rest =>
    if c == '-' then
      if prevDash then collapseDashes true rest
      else '-' :: collapseDashes true rest
    else c :: collapseDashes false rest

/-- `slugify(name)` from `sessions.js` (`toLowerCase` is ASCII lowering
here; the source lowers Unicode-wide, which agrees on `[a-z0-9]` and maps
everything else to a dash either way). -/
def slugify (name : String) : String :=
  String.mk (collapseDashes false
    (stripEdgeDashes (replaceNonAlnumRuns false (jsToLower name).data)))

/-- Lowercase hex digit of a value below 16. -/
def hexDigitChar (d : Nat) : Char :=
  if d < 10 then Char.ofNat (48 + d) else Char.ofNat (87 + d)

/-- `Buffer.toString('hex')` of one byte: two zero-padded lowercase digits. -/
def hexByte (b : Nat) : String :=
  String.mk [hexDigitChar (b / 16 % 16), hexDigitChar (b % 16)]

/-- `generateRandomSuffix()` with the two random bytes made explicit. -/
def generateRandomSuffix (b1 b2 : Nat) : String := hexByte b1 ++ hexByte b2

/-- Request types of the daemon's pending records. -/
inductive RType
  | permission
  | stop
deriving DecidableEq, Repr

/-- A pending-request record. JS records have optional fields, so every
field is an `Option`; permission inserts, stop inserts and registry exports
each fill a different subset. -/
structure PendingRequest where
  sessionId : Option String := none
  tool : Option String := none
  command : Option String := none
  toolUseId : Option String := none
  requestType : Option RType := none
  transcriptPath : Option String := none
  projectDir : Option String := none
  terminalId : Option String := none
  lastCheckedOffset : Option Nat := none
  firstRequestAt : Option String := none
  requestId : Option String := none
  retryCount : Option Nat := none
  messageId : Option MKey := none
  socketAlive : Option Bool := none
deriving DecidableEq, Repr

/-- A registered session in the registry. -/
structure RegSession where
  token : String
  projectSlug : String
deriving DecidableEq, Repr

/-- The in-memory session registry state. -/
structure Registry where
  sessions : JMap String RegSession := []
  sessionsByToken : JMap String String := []
  afk : List String := []
  pendingByMessageId : JMap MKey PendingRequest := []
  pendingKeyToMessageId : JMap String MKey := []
deriving DecidableEq, Repr

/-- `register(sessionId, projectName)`: idempotent token generation, with
the two bytes of `crypto.randomBytes(2)` made explicit inputs. -/
def Registry.register (r : Registry) (sessionId projectName : String) (b1 b2 : Nat) :
    String × Registry :=
  match jget r.sessions sessionId with
  | some s => (s.token, r)
  | none =>
    let projectSlug := slugify projectName
    let token := projectSlug ++ "-" ++ generateRandomSuffix b1 b2
    (token,
     { r with
       sessions := jset r.sessions sessionId ⟨token, projectSlug⟩
       sessionsByToken := jset r.sessionsByToken token sessionId })

/-- `Set.add` (insertion-ordered, no duplicates). -/
def setAdd (l : List String) (x : String) : List String :=
  if l.contains x then l else l ++ [x]

/-- `enableAfk(sessionId)`. -/
def Registry.enableAfk (r : Registry) (sessionId : String) : Registry :=
  { r with afk := setAdd r.afk sessionId }

/-- `disableAfk(sessionId)`. -/
def Registry.disableAfk (r : Registry) (sessionId : String) : Registry :=
  { r with afk := r.afk.filter (· ≠ sessionId) }

/-- `isAfkEnabled(sessionId)`. -/
def Registry.isAfkEnabled (r : Registry) (sessionId : String) : Bool :=
  r.afk.contains sessionId

/-- `makePendingKey`. -/
def makePendingKey (sessionId tool command : String) : String :=
  sessionId ++ ":" ++ tool ++ ":" ++ command

/-- `removePendingByMessageId(messageId)`. -/
def Registry.removePendingByMessageId (r : Registry) (messageId : MKey) : Registry :=
  match jget r.pendingByMessageId messageId with
  | none => r
  | some pending =>
    let key := makePendingKey (pending.sessionId.getD "undefined")
      (pending.tool.getD "undefined") (pending.command.getD "")
    { r with
      pendingKeyToMessageId := jdel r.pendingKeyToMessageId key
      pendingByMessageId := jdel r.pendingByMessageId messageId }

/-- `getPendingCount()`. -/
def Registry.getPendingCount (r : Registry) : Nat := r.pendingByMessageId.length

/-- The `pendingRequests` object built by `exportState()`: grouped by
`pending.sessionId` (each session keeps only the last record — the export
overwrites, it does not accumulate). -/
def Registry.exportPendingRequests (r : Registry) : JMap String PendingRequest :=
  r.pendingByMessageId.foldl
    (fun acc kv =>
      let p := kv.2
      jset acc (p.sessionId.getD "undefined")
        { messageId := p.messageId, tool := p.tool, command := p.command,
          retryCount := p.retryCount, firstRequestAt := p.firstRequestAt })
    []

/-- `importState(state)`: merge the persisted AFK session list. -/
def Registry.importState (r : Registry) (afkSessions : List String) : Registry :=
  { r with afk := afkSessions.foldl setAdd r.afk }

/-! ### Telegram adapter (`scripts/daemon/telegram.js`) -/

/-- The fields of a Telegram `message` the daemon reads. -/
structure TgMessage where
  chatId : Option Int := none
  text : Option String := none
  date : Option Int := none
  replyToMessageId : Option Int := none
deriving DecidableEq, Repr

/-- One update returned by `getUpdates`. -/
structure TgUpdate where
  updateId : Int
  message : Option TgMessage := none
deriving DecidableEq, Repr

/-- The staleness filter applied by `getUpdates` before returning updates:
keep an update iff it has no dated message or its age `now - date` is at
most the threshold (`Date.now() / 1000` makes `now` rational). A zero
`date` is falsy and kept, as in the source. -/
def filterStaleUpdates (staleThreshold : ℚ) (now : ℚ) (updates : List TgUpdate) :
    List TgUpdate :=
  updates.filter (fun u =>
    match u.message with
    | none => true
    | some m =>
      match m.date with
      | none => true
      | some d => if d = 0 then true else decide ((now - (d : ℚ)) ≤ staleThreshold))

/-! ### Daemon core (`scripts/daemon/index.js`) -/

/-- The configuration options read by the modelled code paths (defaults of
`DEFAULT_CONFIG`). -/
structure DaemonConfig where
  alwaysEnabled : Bool := false
  maxRetries : Nat := 3
  staleUpdateThreshold : ℚ := 300
  allowSinglePendingFallback : Bool := true
  bulkApprovalTools : List String := ["Edit", "Write"]
deriving DecidableEq, Repr

/-- Per-process context: the configuration and whether a bot token was
present in the environment (`telegram.isConfigured()`). -/
structure DaemonCtx where
  config : DaemonConfig := {}
  telegramConfigured : Bool := true
deriving DecidableEq, Repr

/-- The persisted `ProcessState` (`state.json`). -/
structure DaemonState where
  chatId : Option Int := none
  afkSessions : List String := []
  pendingRequests : JMap String PendingRequest := []
  requestsBySession : JMap String (List String) := []
  sessionWhitelists : JMap String (List String) := []
deriving DecidableEq, Repr

/-- A hook connection; `destroyed` is the socket's liveness flag at the
moment the modelled handler runs. -/
structure SocketRef where
  sid : Nat
  destroyed : Bool := false
deriving DecidableEq, Repr

/-- One entry of the in-memory `waitingSockets` map. -/
structure WaitingInfo where
  requestId : Option String := none
  sessionId : Option String := none
  wtype : Option RType := none
  toolName : Option String := none
  allowBulkApproval : Bool := false
  socket : Option SocketRef := none
deriving DecidableEq, Repr

/-- A reply frame written to a hook (`type: 'response'` implicit). -/
structure Frame where
  request_id : Option String := none
  status : String := ""
  message : Option String := none
  resolution : Option String := none
  instructions : Option String := none
  bulk_approved : Option Bool := none
deriving DecidableEq, Repr

/-- Externally observable effects, in execution order. -/
inductive Action
  | sendTg (chatId : Option Int) (text : String)
  | deleteTg (chatId : Option Int) (messageId : MKey)
  | reply (sock : Option SocketRef) (f : Frame)
  | persist (s : DaemonState)
  | exitProcess (code : Nat)
deriving DecidableEq, Repr

/-- The daemon's full mutable memory. -/
structure Mem where
  state : DaemonState := {}
  registry : Registry := {}
  waitingSockets : JMap MKey WaitingInfo := []
  socketToMessageIds : JMap Nat (List MKey) := []
  telegramOffset : Int := 0
  consecutiveConflictErrors : Nat := 0
deriving DecidableEq, Repr

/-- A terminal-binding file (`$HOME/.claude/sessions/by-terminal/<id>.json`). -/
inductive BindFile
  | malformedBind
  | bindObj (sessionId : Option String)

/-- The observable file system at the moment of one step: parsed transcripts
by path, file mtimes in ms, the `agent-*.jsonl` sibling listing of each
transcript, and the terminal-binding files by terminal id. An absent entry
is an unreadable or missing file. -/
structure Fs where
  transcripts : JMap String Transcript := []
  mtimes : JMap String Int := []
  siblings : JMap String (List String) := []
  bindings : JMap String BindFile := []

/-- Read and scan a transcript path (`null` on read error). -/
def getLastClaudeMessageFs (fs : Fs) (path : Option String) (maxLength : Nat) :
    Option String :=
  (path.bind (jget fs.transcripts)).bind (fun lines => getLastClaudeMessage lines maxLength)

def getLastUserMessageFs (fs : Fs) (path : Option String) (maxLength : Nat) :
    Option String :=
  (path.bind (jget fs.transcripts)).bind (fun lines => getLastUserMessage lines maxLength)

def getLastToolUseFs (fs : Fs) (path : Option String) : Option ToolUseInfo :=
  (path.bind (jget fs.transcripts)).bind getLastToolUse

def getLineCountFs (fs : Fs) (path : Option String) : Nat :=
  match path.bind (jget fs.transcripts) with
  | some lines => getLineCount lines
  | none => 0

def findToolResultFs (fs : Fs) (path : Option String) (tid : Option String)
    (afterOffset : Option Nat) : Option FindToolRes :=
  (path.bind (jget fs.transcripts)).map (fun lines => findToolResult lines tid afterOffset)

def findUserMessageFs (fs : Fs) (path : Option String) (afterOffset : Option Nat) :
    Option FindUserRes :=
  (path.bind (jget fs.transcripts)).map (fun lines => findUserMessage lines afterOffset)

def findSubagentTranscriptsFs (fs : Fs) (path : Option String) : List String :=
  (path.bind (jget fs.siblings)).getD []

def getFileMtimeFs (fs : Fs) (path : String) : Option Int := jget fs.mtimes path

/-- The object key a possibly-undefined id selects (`obj[undefined]` reads
the key `"undefined"`). -/
def jkeyOf (o : Option String) : String := o.getD "undefined"

/-- `escapeMarkdown(text)`: backslash-prefix the four original-Markdown
specials (underscore, asterisk, backquote, open bracket). -/
def escapeMarkdown (text : String) : String :=
  if text.isEmpty then text
  else String.join (text.data.map (fun c =>
    if c = '_' || c = '*' || c = Char.ofNat 96 || c = '[' then String.mk ['\\', c]
    else String.mk [c]))

/-- `escapeMarkdown` applied to a possibly-undefined string inside a
template literal (an undefined value renders as `undefined`). -/
def escapeMarkdownOpt : Option String → String
  | some t => escapeMarkdown t
  | none => "undefined"

/-- `formatPermissionNotification`. -/
def formatPermissionNotification (token : String) (claudeContext : Option String)
    (toolName : Option String) (message : String) (projectSlug : String)
    (allowBulkApproval : Bool) : String :=
  "[" ++ escapeMarkdown projectSlug ++ "] #" ++ token ++ "\n\n" ++
  (match claudeContext with
   | some c => if c.isEmpty then "" else escapeMarkdown c ++ "\n\n"
   | none => "") ++
  "*Permission:* " ++ escapeMarkdownOpt toolName ++ "\n" ++
  escapeMarkdown message ++ "\n\n" ++
  (if allowBulkApproval then "Reply: yes / no / all" else "Reply: yes / no")

/-- `formatStopNotification` (plain text, no escaping). -/
def formatStopNotification (token : String) (claudeContext : Option String)
    (projectSlug : String) : String :=
  "[" ++ projectSlug ++ "] #" ++ token ++ "\n\n" ++
  (match claudeContext with
   | some c => if c.isEmpty then "" else c ++ "\n\n"
   | none => "") ++
  "Task complete. Reply with follow-up instructions or ignore to stop."

/-- The three permission verdicts. -/
inductive PermDecision
  | approved
  | denied
  | approved_all
deriving DecidableEq, Repr

/-- `parsePermissionResponse(text, allowBulkApproval)`. -/
def parsePermissionResponse (text : String) (allowBulkApproval : Bool) :
    Option PermDecision :=
  let normalized := jsToLower (jsTrim text)
  if normalized = "yes" || normalized = "y" then some .approved
  else if normalized = "no" || normalized = "n" then some .denied
  else if allowBulkApproval &&
      (normalized = "all" || normalized = "yes all" || normalized = "y all" ||
       normalized = "always") then some .approved_all
  else none

/-- `findExistingPendingRequest(state, sessionId, toolName, command)`:
first message id of the session whose pending matches tool and command
under strict equality. -/
def findExistingPendingRequest (s : DaemonState) (sessionId toolName command : Option String) :
    Option (PendingRequest × String) :=
  let rec go : List String → Option (PendingRequest × String)
    | [] => none
    | msgId :: rest =>
      match jget s.pendingRequests msgId with
      | some req =>
        if jsEqOptStr req.tool toolName && jsEqOptStr req.command command then
          some (req, msgId)
        else go rest
      | none => go rest
  go ((jget s.requestsBySession (jkeyOf sessionId)).getD [])

/-- `removeFromDualIndex(state, messageId, sessionId)`. -/
def removeFromDualIndex (s : DaemonState) (messageId : MKey) (sessionId : Option String) :
    DaemonState :=
  let msgIdStr := messageId.jsString
  let s1 := { s with pendingRequests := jdel s.pendingRequests msgIdStr }
  match jget s1.requestsBySession (jkeyOf sessionId) with
  | none => s1
  | some sessionRequests =>
    let remaining := sessionRequests.erase msgIdStr
    if remaining.isEmpty then
      { s1 with requestsBySession := jdel s1.requestsBySession (jkeyOf sessionId) }
    else
      { s1 with requestsBySession := jset s1.requestsBySession (jkeyOf sessionId) remaining }

/-- `isMaxRetriesExceeded(retryCount, maxRetries)`. -/
def isMaxRetriesExceeded (retryCount maxRetries : Nat) : Bool :=
  decide (retryCount ≥ maxRetries)

/-- `checkRequestExists(state, messageId)` (`exists` is `isSome`). -/
def checkRequestExists (s : DaemonState) (messageId : MKey) : Option PendingRequest :=
  jget s.pendingRequests messageId.jsString

/-- `isToolWhitelisted(sessionId, toolName)`. -/
def isToolWhitelisted (s : DaemonState) (sessionId toolName : Option String) : Bool :=
  match jget s.sessionWhitelists (jkeyOf sessionId) with
  | some wl =>
    match toolName with
    | some t => wl.contains t
    | none => false
  | none => false

/-- `addToWhitelist(sessionId, toolName)`: appends and persists only when
the tool is not yet whitelisted. -/
def addToWhitelist (s : DaemonState) (sessionId toolName : String) :
    DaemonState × List Action :=
  let wl := (jget s.sessionWhitelists sessionId).getD []
  if wl.contains toolName then (s, [])
  else
    let s' := { s with sessionWhitelists := jset s.sessionWhitelists sessionId (wl ++ [toolName]) }
    (s', [Action.persist s'])

/-- `clearWhitelist(sessionId)`. -/
def clearWhitelist (s : DaemonState) (sessionId : Option String) :
    DaemonState × List Action :=
  match jget s.sessionWhitelists (jkeyOf sessionId) with
  | some _ =>
    let s' := { s with sessionWhitelists := jdel s.sessionWhitelists (jkeyOf sessionId) }
    (s', [Action.persist s'])
  | none => (s, [])

/-- `isBulkApprovalAllowed(toolName)`. -/
def isBulkApprovalAllowed (cfg : DaemonConfig) (toolName : Option String) : Bool :=
  match toolName with
  | some t => cfg.bulkApprovalTools.contains t
  | none => false

/-- Result of running one handler: memory afterwards, effects in order, and
the message of an exception that escaped the handler, if any (memory
reflects the mutations made before the throw). -/
structure HR where
  mem : Mem
  acts : List Action := []
  err : Option String := none
deriving DecidableEq, Repr

/-- `trackWaitingSocket(messageId, socket, waitingData)`. -/
def trackWaitingSocket (mem : Mem) (messageId : MKey) (sock : SocketRef)
    (waitingData : WaitingInfo) : Mem :=
  let cur := (jget mem.socketToMessageIds sock.sid).getD []
  { mem with
    waitingSockets := jset mem.waitingSockets messageId { waitingData with socket := some sock }
    socketToMessageIds := jset mem.socketToMessageIds sock.sid
      (if cur.contains messageId then cur else cur ++ [messageId]) }

/-- An inbound `permission_request` message. -/
structure PermMsg where
  session_id : Option String := none
  terminal_id : Option String := none
  tool_name : Option String := none
  message : Option String := none
  transcript_path : Option String := none
  cwd : Option String := none
  request_id : Option String := none
deriving DecidableEq, Repr

/-- An inbound `stop_request` message. -/
structure StopMsg where
  session_id : Option String := none
  terminal_id : Option String := none
  transcript_path : Option String := none
  cwd : Option String := none
  request_id : Option String := none
deriving DecidableEq, Repr

/-- Steps 5–11 of the permission path: gather context, register, send the
notification, insert into the dual index, park the caller. -/
def permissionSendPhase (ctx : DaemonCtx) (fs : Fs) (mem : Mem) (msg : PermMsg)
    (sendResult : Except String Int) (b1 b2 : Nat) (nowIso : String) (sock : SocketRef)
    (carriedRetry : Option Nat) : HR :=
  let claudeContext :=
    match getLastClaudeMessageFs fs msg.transcript_path 500 with
    | some c => some c
    | none =>
      match getLastUserMessageFs fs msg.transcript_path 300 with
      | some u => some ("User: " ++ u)
      | none => none
  let toolUse := getLastToolUseFs fs msg.transcript_path
  let actualCommand :=
    match toolUse with
    | some tu => formatToolInput tu.tool (some tu.input)
    | none => jsOrStr msg.message "(unknown)"
  let projectSlug :=
    let bn := basename (jsOrStr msg.cwd ".")
    if bn.isEmpty then "project" else bn
  let regRes := mem.registry.register (jkeyOf msg.session_id) projectSlug b1 b2
  let token := regRes.1
  let mem1 := { mem with registry := regRes.2 }
  let allowBulkApproval := isBulkApprovalAllowed ctx.config msg.tool_name
  let _notificationText := formatPermissionNotification token claudeContext msg.tool_name
    actualCommand projectSlug allowBulkApproval
  match sendResult with
  | .error e =>
    { mem := mem1,
      acts := [.reply (some sock)
        { request_id := msg.request_id, status := "error",
          message := some ("Failed to send notification: " ++ e) }] }
  | .ok messageIdNum =>
    let msgIdStr := toString messageIdNum
    let pr : PendingRequest :=
      { sessionId := msg.session_id, tool := msg.tool_name, command := msg.message,
        toolUseId := toolUse.bind (·.id), requestType := some .permission,
        transcriptPath := msg.transcript_path, projectDir := msg.cwd,
        terminalId := msg.terminal_id, lastCheckedOffset := some 0,
        firstRequestAt := some nowIso, requestId := msg.request_id,
        retryCount := some (carriedRetry.getD 0), socketAlive := some true }
    let state2 := { mem1.state with
      pendingRequests := jset mem1.state.pendingRequests msgIdStr pr }
    let sessKey := jkeyOf msg.session_id
    let state3 := { state2 with
      requestsBySession := jset state2.requestsBySession sessKey
        (((jget state2.requestsBySession sessKey).getD []) ++ [msgIdStr]) }
    -- the per-request timeout is armed here; its later firing is the
    -- separate `permissionTimeoutFire` transition
    let mem2 := trackWaitingSocket { mem1 with state := state3 } (.num messageIdNum) sock
      { requestId := msg.request_id, sessionId := msg.session_id, wtype := some .permission,
        toolName := msg.tool_name, allowBulkApproval := allowBulkApproval }
    { mem := mem2, acts := [.sendTg mem.state.chatId (formatPermissionNotification token
        claudeContext msg.tool_name actualCommand projectSlug allowBulkApproval),
        .persist state3] }

/-- `handlePermissionRequest(msg, respond, socket)`. The Telegram send
result and the registry's two random bytes are explicit inputs; `nowIso`
is `new Date().toISOString()`. -/
def handlePermissionRequest (ctx : DaemonCtx) (fs : Fs) (mem : Mem) (msg : PermMsg)
    (sendResult : Except String Int) (b1 b2 : Nat) (nowIso : String) (sock : SocketRef) :
    HR :=
  if !ctx.config.alwaysEnabled && !mem.registry.isAfkEnabled (jkeyOf msg.session_id) then
    { mem := mem,
      acts := [.reply (some sock)
        { request_id := msg.request_id, status := "not_enabled" }] }
  else if !ctx.telegramConfigured then
    { mem := mem,
      acts := [.reply (some sock)
        { request_id := msg.request_id, status := "not_configured",
          message := some "Telegram bot not configured. Run /claude-afk:setup" }] }
  else if !truthyInt mem.state.chatId then
    { mem := mem,
      acts := [.reply (some sock)
        { request_id := msg.request_id, status := "not_configured",
          message := some "No chat ID configured. Send /start to your Telegram bot" }] }
  else if isToolWhitelisted mem.state msg.session_id msg.tool_name then
    { mem := mem,
      acts := [.reply (some sock)
        { request_id := msg.request_id, status := "approved",
          bulk_approved := some true }] }
  else
    let existing := findExistingPendingRequest mem.state msg.session_id msg.tool_name msg.message
    -- `existing.request.retryCount = (existing.request.retryCount || 0) + 1` mutates
    -- the stored record in place before any further check.
    let retried : Option (Nat × String) := existing.map (fun e => ((e.1.retryCount.getD 0) + 1, e.2))
    let mem1 :=
      match existing with
      | some (req, mid) =>
        { mem with state := { mem.state with
            pendingRequests := jset mem.state.pendingRequests mid
              { req with retryCount := some ((req.retryCount.getD 0) + 1) } } }
      | none => mem
    match retried with
    | some (inc, mid) =>
      if isMaxRetriesExceeded inc ctx.config.maxRetries then
        let state2 := removeFromDualIndex mem1.state (.str mid) msg.session_id
        let delActs := if truthyInt state2.chatId && !mid.isEmpty then
            [Action.deleteTg state2.chatId (.str mid)] else []
        { mem := { mem1 with state := state2 },
          acts := delActs ++ [.persist state2,
            .reply (some sock)
              { request_id := msg.request_id, status := "timeout_final",
                message := some "User unavailable after multiple retries." }] }
      else permissionSendPhase ctx fs mem1 msg sendResult b1 b2 nowIso sock (some inc)
    | none => permissionSendPhase ctx fs mem1 msg sendResult b1 b2 nowIso sock none

/-- `handleStopRequest(msg, respond, socket)`. -/
def handleStopRequest (ctx : DaemonCtx) (fs : Fs) (mem : Mem) (msg : StopMsg)
    (sendResult : Except String Int) (b1 b2 : Nat) (nowIso : String) (sock : SocketRef) :
    HR :=
  if !ctx.config.alwaysEnabled && !mem.registry.isAfkEnabled (jkeyOf msg.session_id) then
    { mem := mem, acts := [.reply (some sock) { request_id := msg.request_id, status := "not_enabled" }] }
  else if !ctx.telegramConfigured || !truthyInt mem.state.chatId then
    { mem := mem, acts := [.reply (some sock) { request_id := msg.request_id, status := "not_configured" }] }
  else
    let claudeContext := getLastClaudeMessageFs fs msg.transcript_path 500
    let projectSlug :=
      let bn := basename (jsOrStr msg.cwd ".")
      if bn.isEmpty then "project" else bn
    let regRes := mem.registry.register (jkeyOf msg.session_id) projectSlug b1 b2
    let token := regRes.1
    let mem1 := { mem with registry := regRes.2 }
    match sendResult with
    | .error e =>
      { mem := mem1,
        acts := [.reply (some sock)
          { request_id := msg.request_id, status := "error",
            message := some ("Failed to send notification: " ++ e) }] }
    | .ok messageIdNum =>
      let currentOffset := getLineCountFs fs msg.transcript_path
      let msgIdStr := toString messageIdNum
      let pr : PendingRequest :=
        { sessionId := msg.session_id, requestType := some .stop,
          transcriptPath := msg.transcript_path, projectDir := msg.cwd,
          terminalId := msg.terminal_id, lastCheckedOffset := some currentOffset,
          firstRequestAt := some nowIso, requestId := msg.request_id,
          socketAlive := some true }
      let state2 := { mem1.state with
        pendingRequests := jset mem1.state.pendingRequests msgIdStr pr }
      let sessKey := jkeyOf msg.session_id
      let state3 := { state2 with
        requestsBySession := jset state2.requestsBySession sessKey
          (((jget state2.requestsBySession sessKey).getD []) ++ [msgIdStr]) }
      let mem2 := trackWaitingSocket { mem1 with state := state3 } (.num messageIdNum) sock
        { requestId := msg.request_id, sessionId := msg.session_id, wtype := some .stop }
      { mem := mem2, acts := [.sendTg mem.state.chatId (formatStopNotification token
          claudeContext projectSlug), .persist state3] }

/-- `handleEnableAfk`. -/
def handleEnableAfk (mem : Mem) (session_id request_id : Option String) (sock : SocketRef) :
    HR :=
  let registry1 := mem.registry.enableAfk (jkeyOf session_id)
  let state1 := { mem.state with afkSessions := registry1.afk }
  { mem := { mem with registry := registry1, state := state1 },
    acts := [.persist state1, .reply (some sock) { request_id := request_id, status := "enabled" }] }

/-- `handleDisableAfk`. -/
def handleDisableAfk (mem : Mem) (session_id request_id : Option String) (sock : SocketRef) :
    HR :=
  let registry1 := mem.registry.disableAfk (jkeyOf session_id)
  let wlRes := clearWhitelist mem.state session_id
  let state1 := { wlRes.1 with afkSessions := registry1.afk }
  { mem := { mem with registry := registry1, state := state1 },
    acts := wlRes.2 ++ [.persist state1, .reply (some sock) { request_id := request_id, status := "disabled" }] }

/-- `checkTranscriptForResolution(request)` (`false` on any read error). -/
def checkTranscriptForResolution (fs : Fs) (request : PendingRequest) : Bool :=
  match request.requestType with
  | some .permission =>
    match findToolResultFs fs request.transcriptPath request.toolUseId (some 0) with
    | some r => r.found
    | none => false
  | some .stop =>
    match findUserMessageFs fs request.transcriptPath request.lastCheckedOffset with
    | some r => r.found
    | none => false
  | none => false

/-- The permission branch of `handleResponse`, entered after the waiting
entry has been removed from the in-memory maps. -/
def handleResponsePermission (fs : Fs) (mem2 : Mem) (messageIdNum : Int)
    (waiting : WaitingInfo) (pending : PendingRequest) (text : Option String) : HR :=
  match text with
  | none =>
    -- `text.trim()` inside `parsePermissionResponse` throws on an undefined text
    { mem := mem2, err := some "TypeError: Cannot read properties of undefined" }
  | some t =>
    match parsePermissionResponse t waiting.allowBulkApproval with
    | none =>
      let validResponses :=
        if waiting.allowBulkApproval then "Reply 'yes', 'no', or 'all'"
        else "Reply 'yes' or 'no'"
      -- restore the parked reply (note: only `waitingSockets`; the
      -- socket-to-ids index is not re-populated, as in the source)
      { mem := { mem2 with
          waitingSockets := jset mem2.waitingSockets (.num messageIdNum) waiting },
        acts := [.sendTg mem2.state.chatId validResponses] }
    | some decision =>
      let wlRes :=
        if decision = .approved_all && truthyStr waiting.toolName &&
            truthyStr waiting.sessionId then
          let r := addToWhitelist mem2.state (waiting.sessionId.getD "")
            (waiting.toolName.getD "")
          (r.1, r.2 ++ [Action.sendTg r.1.chatId ("✓ All " ++ waiting.toolName.getD "" ++
            " requests will be auto-approved for this session.")])
        else (mem2.state, ([] : List Action))
      let stateW := wlRes.1
      let wlActs := wlRes.2
      let state3 := removeFromDualIndex stateW (.num messageIdNum) waiting.sessionId
      let responseStatus := if decision = .denied then "denied" else "approved"
      let frame : Frame :=
        { request_id := waiting.requestId, status := responseStatus,
          message := if decision = .denied then some "User denied" else none,
          bulk_approved := some (decision == .approved_all) }
      let tailActs :=
        match waiting.socket with
        | some s =>
          if !s.destroyed then [Action.reply (some s) frame]
          else if checkTranscriptForResolution fs pending then
            [Action.sendTg state3.chatId "✅ Already handled locally"]
          else
            [Action.sendTg state3.chatId "⚠️ Unable to deliver response - session may have ended. Please respond in Claude Code if still needed."]
        | none =>
          if checkTranscriptForResolution fs pending then
            [Action.sendTg state3.chatId "✅ Already handled locally"]
          else
            [Action.sendTg state3.chatId "⚠️ Unable to deliver response - session may have ended. Please respond in Claude Code if still needed."]
      { mem := { mem2 with state := state3 },
        acts := wlActs ++ [Action.persist state3] ++ tailActs }

/-- The stop branch of `handleResponse`. -/
def handleResponseStop (fs : Fs) (mem2 : Mem) (messageIdNum : Int)
    (waiting : WaitingInfo) (pending : PendingRequest) (text : Option String) : HR :=
  let state3 := removeFromDualIndex mem2.state (.num messageIdNum) waiting.sessionId
  let mem3 := { mem2 with state := state3 }
  match text with
  | none =>
    -- `instructions.length` throws on an undefined text, after the removal
    -- and persist already happened
    { mem := mem3, acts := [.persist state3],
      err := some "TypeError: Cannot read properties of undefined" }
  | some t =>
    let instructions :=
      if t.length > 2000 then
        jsSubstring0 t 1997 ++ "... (truncated, original was " ++ toString t.length ++
          " chars)"
      else t
    let frame : Frame :=
      { request_id := waiting.requestId, status := "continue",
        instructions := some instructions }
    let tailActs :=
      match waiting.socket with
      | some s =>
        if !s.destroyed then [Action.reply (some s) frame]
        else if checkTranscriptForResolution fs pending then
          [Action.sendTg state3.chatId "✅ Already handled locally"]
        else
          [Action.sendTg state3.chatId "⚠️ Unable to deliver response - session may have ended. Please respond in Claude Code if still needed."]
      | none =>
        if checkTranscriptForResolution fs pending then
          [Action.sendTg state3.chatId "✅ Already handled locally"]
        else
          [Action.sendTg state3.chatId "⚠️ Unable to deliver response - session may have ended. Please respond in Claude Code if still needed."]
    { mem := mem3, acts := [Action.persist state3] ++ tailActs }

/-- `handleResponse(messageId, waiting, text)`. -/
def handleResponse (fs : Fs) (mem : Mem) (messageIdNum : Int) (waiting : WaitingInfo)
    (text : Option String) : HR :=
  match checkRequestExists mem.state (.num messageIdNum) with
  | none =>
    { mem := mem,
      acts := [.sendTg mem.state.chatId "✅ Already handled locally",
        .deleteTg mem.state.chatId (.num messageIdNum)] }
  | some pending =>
    -- the armed timeout is cleared here; its firing transition then no-ops
    let mem1 := { mem with waitingSockets := jdel mem.waitingSockets (.num messageIdNum) }
    let mem2 :=
      match waiting.socket with
      | some s =>
        match jget mem1.socketToMessageIds s.sid with
        | some ids =>
          let ids' := ids.filter (· ≠ MKey.num messageIdNum)
          { mem1 with socketToMessageIds := jset mem1.socketToMessageIds s.sid ids' }
        | none => mem1
      | none => mem1
    if waiting.wtype == some .permission then
      handleResponsePermission fs mem2 messageIdNum waiting pending text
    else if waiting.wtype == some .stop then
      handleResponseStop fs mem2 messageIdNum waiting pending text
    else { mem := mem2 }

/-- Strict equality `chatId !== state.chatId` proceeds only when both sides
are present numbers that agree (`undefined !== null`). -/
def chatMatches : Option Int → Option Int → Bool
  | some a, some b => a == b
  | _, _ => false

/-- The no-reply-target branch of `processUpdate` (single-pending fallback). -/
def singlePendingFallback (ctx : DaemonCtx) (fs : Fs) (mem : Mem) (chatId : Option Int)
    (text : Option String) : HR :=
  let pendingRequestCount := (jkeys mem.state.pendingRequests).length
  if ctx.config.allowSinglePendingFallback && pendingRequestCount == 1 then
    match (jkeys mem.state.pendingRequests).head? with
    | none => { mem := mem }
    | some messageId =>
      let waitingEntry :=
        match jsNumber? messageId with
        | some n => (jget mem.waitingSockets (.num n)).map (fun w => (n, w))
        | none => none
      match waitingEntry with
      | some (n, waiting) => handleResponse fs mem n waiting text
      | none =>
        match jget mem.state.pendingRequests messageId with
        | some pending =>
          match text with
          | none =>
            { mem := mem, err := some "TypeError: Cannot read properties of undefined" }
          | some t =>
            match parsePermissionResponse t (isBulkApprovalAllowed ctx.config pending.tool) with
            | some _decision =>
              let state1 := removeFromDualIndex mem.state (.str messageId) pending.sessionId
              { mem := { mem with state := state1 },
                acts := [.persist state1, .deleteTg chatId (.str messageId),
                  .sendTg chatId "✅ Response recorded, but the session is no longer active. If you resumed the session, you may need to re-run the command."] }
            | none =>
              { mem := mem, acts := [.sendTg chatId "Reply 'yes' or 'no'"] }
        | none => { mem := mem }
  else if pendingRequestCount > 0 then
    { mem := mem, acts := [.sendTg chatId "Please reply directly to a notification message."] }
  else { mem := mem }

/-- `processUpdate(update)`. -/
def processUpdate (ctx : DaemonCtx) (fs : Fs) (mem : Mem) (u : TgUpdate) : HR :=
  match u.message with
  | none => { mem := mem }
  | some m =>
    let chatId := m.chatId
    let text := m.text.map jsTrim
    if text == some "/start" && truthyInt chatId then
      let state1 := { mem.state with chatId := chatId }
      { mem := { mem with state := state1 },
        acts := [.persist state1,
          .sendTg chatId "✅ Claude AFK is now paired with this chat!\n\nYou'll receive permission requests here when AFK mode is enabled."] }
    else if !chatMatches chatId mem.state.chatId then { mem := mem }
    else
      match m.replyToMessageId with
      | none => singlePendingFallback ctx fs mem chatId text
      | some rid =>
        match jget mem.waitingSockets (.num rid) with
        | none =>
          { mem := mem,
            acts := [.sendTg chatId "This request has expired or already been handled."] }
        | some waiting => handleResponse fs mem rid waiting text

/-- Outcome of one `processTelegramUpdates` tick. -/
inductive TickOutcome
  | ranToEnd
  | crashedUnhandled (e : String)
deriving DecidableEq, Repr

/-- The update loop of `processTelegramUpdates` (stops at the first thrown
error, which the enclosing catch receives). -/
def runUpdatesLoop (ctx : DaemonCtx) (fs : Fs) :
    Mem → List Action → List TgUpdate → Mem × List Action × Option String
  | mem, acts, [] => (mem, acts, none)
  | mem, acts, u :: rest =>
    let mem0 := { mem with telegramOffset := u.updateId + 1 }
    let r := processUpdate ctx fs mem0 u
    match r.err with
    | some e => (r.mem, acts ++ r.acts, some e)
    | none => runUpdatesLoop ctx fs r.mem (acts ++ r.acts) rest

/-- The catch block of `processTelegramUpdates`: conflict counting, the
one-time notification and the attempted shutdown. -/
def conflictCatch (mem : Mem) (acts : List Action) (e : String) :
    Mem × List Action × TickOutcome :=
  if strIncludes e "Conflict" then
    let n := mem.consecutiveConflictErrors + 1
    let memN := { mem with consecutiveConflictErrors := n }
    if n ≥ 3 then
      let notifyActs :=
        if truthyInt memN.state.chatId then
          [Action.sendTg memN.state.chatId "⚠️ Claude AFK detected another bot instance polling.\n\nThis daemon is shutting down. The other instance will handle notifications.\n\nIf this was unexpected, check for daemons running on other machines."]
        else []
      -- `await shutdown(); process.exit(0);` — no binding named `shutdown`
      -- exists anywhere in the module (the cleanup function is `stop`), so
      -- the call raises a ReferenceError inside the catch block: the
      -- process.exit(0) line is never reached and the async tick rejects
      -- with no handler attached.
      (memN, acts ++ notifyActs,
       .crashedUnhandled "ReferenceError: shutdown is not defined")
    else (memN, acts, .ranToEnd)
  else (mem, acts, .ranToEnd)

/-- `processTelegramUpdates()` on the outcome of one `getUpdates` call. -/
def processTelegramUpdates (ctx : DaemonCtx) (fs : Fs) (mem : Mem)
    (poll : Except String (List TgUpdate)) : Mem × List Action × TickOutcome :=
  if !ctx.telegramConfigured then (mem, [], .ranToEnd)
  else
    match poll with
    | .ok updates =>
      let mem0 := { mem with consecutiveConflictErrors := 0 }
      match runUpdatesLoop ctx fs mem0 [] updates with
      | (mem1, acts, none) => (mem1, acts, .ranToEnd)
      | (mem1, acts, some e) => conflictCatch mem1 acts e
    | .error e => conflictCatch mem [] e

/-- `getUpdates(offset)` of the adapter: empty when unconfigured, otherwise
the API outcome with the staleness filter applied to a success. -/
def getUpdates (configured : Bool) (staleThreshold now : ℚ)
    (apiResult : Except String (List TgUpdate)) : Except String (List TgUpdate) :=
  if !configured then .ok []
  else apiResult.map (filterStaleUpdates staleThreshold now)

/-- One polling tick: fetch (with the staleness filter) then process. -/
def telegramTick (ctx : DaemonCtx) (fs : Fs) (mem : Mem) (now : ℚ)
    (apiResult : Except String (List TgUpdate)) : Mem × List Action × TickOutcome :=
  processTelegramUpdates ctx fs mem
    (getUpdates ctx.telegramConfigured ctx.config.staleUpdateThreshold now apiResult)

/-- `handleLocalResolution(messageId, request, resolution)`. It is called
from `pollTranscripts` with the string message id of the dual index, so the
`waitingSockets` lookup uses a string key. -/
def handleLocalResolution (mem : Mem) (messageIdKey : MKey) (request : PendingRequest)
    (resolution : String) : Mem × List Action :=
  let replyActs :=
    match jget mem.waitingSockets messageIdKey with
    | some w =>
      match w.socket with
      | some s =>
        if !s.destroyed then
          [Action.reply (some s)
            { request_id := w.requestId, status := "resolved_locally",
              resolution := some resolution }]
        else []
      | none => []
    | none => []
  let state1 := removeFromDualIndex mem.state messageIdKey request.sessionId
  ({ mem with state := state1, waitingSockets := jdel mem.waitingSockets messageIdKey },
   replyActs ++ [.deleteTg mem.state.chatId messageIdKey, .persist state1])

/-- `request.lastCheckedOffset = result.offset`: visible in the store only
while the record is still indexed there. -/
def setOffsetIfPresent (s : DaemonState) (key : String) (off : Nat) : DaemonState :=
  match jget s.pendingRequests key with
  | some p =>
    let p' := { p with lastCheckedOffset := some off }
    { s with pendingRequests := jset s.pendingRequests key p' }
  | none => s

/-- The subagent-transcript scan of `checkPermissionResolution`: first
recently-modified sibling containing a matching `tool_result`. -/
def scanSubagents (fs : Fs) (nowMs : Int) (tid : Option String) : List String → Option Bool
  | [] => none
  | f :: rest =>
    match getFileMtimeFs fs f with
    | some mtime =>
      if mtime != 0 && mtime > nowMs - 10000 then
        match findToolResultFs fs (some f) tid (some 0) with
        | some sr =>
          if sr.found then some sr.isError else scanSubagents fs nowMs tid rest
        | none => scanSubagents fs nowMs tid rest
      else scanSubagents fs nowMs tid rest
    | none => scanSubagents fs nowMs tid rest

/-- `checkPermissionResolution(messageId, request)`. -/
def checkPermissionResolution (fs : Fs) (nowMs : Int) (mem : Mem) (midKey : MKey)
    (request : PendingRequest) : Mem × List Action :=
  let result := findToolResultFs fs request.transcriptPath request.toolUseId
    request.lastCheckedOffset
  let subHit :=
    if truthyStr request.projectDir then
      scanSubagents fs nowMs request.toolUseId
        (findSubagentTranscriptsFs fs request.transcriptPath)
    else none
  match result with
  | some r =>
    if r.found then
      handleLocalResolution mem midKey request (if r.isError then "denied" else "approved")
    else
      match subHit with
      | some isErr =>
        handleLocalResolution mem midKey request (if isErr then "denied" else "approved")
      | none => ({ mem with state := setOffsetIfPresent mem.state midKey.jsString r.offset }, [])
  | none =>
    match subHit with
    | some isErr =>
      handleLocalResolution mem midKey request (if isErr then "denied" else "approved")
    | none => (mem, [])

/-- `checkStopResolution(messageId, request)`. -/
def checkStopResolution (fs : Fs) (mem : Mem) (midKey : MKey) (request : PendingRequest) :
    Mem × List Action :=
  match findUserMessageFs fs request.transcriptPath request.lastCheckedOffset with
  | some r =>
    if r.found then
      let lr := handleLocalResolution mem midKey request "local_followup"
      ({ lr.1 with state := setOffsetIfPresent lr.1.state midKey.jsString r.offset }, lr.2)
    else ({ mem with state := setOffsetIfPresent mem.state midKey.jsString r.offset }, [])
  | none => (mem, [])

/-- The per-request body of the `pollTranscripts` inner loop. The string
message id is looked up in the numerically-keyed `waitingSockets` map, as
in the source. -/
def pollOneRequest (fs : Fs) (nowMs : Int) (mem : Mem) (mid : String) : Mem × List Action :=
  match jget mem.state.pendingRequests mid with
  | none => (mem, [])
  | some request =>
    let socketDead :=
      match jget mem.waitingSockets (.str mid) with
      | some w => match w.socket with | some s => s.destroyed | none => false
      | none => false
    if socketDead then handleLocalResolution mem (.str mid) request "socket_closed"
    else if request.requestType == some .permission then
      checkPermissionResolution fs nowMs mem (.str mid) request
    else if request.requestType == some .stop then
      checkStopResolution fs mem (.str mid) request
    else (mem, [])

/-- The inner `for (const messageId of messageIds)` loop. The session's
live array is re-read each step (splices during iteration shift later
elements under the advancing index, exactly as the JS array iterator
does); the fuel is the array length at entry, which the loop can never
exceed because the array only shrinks. -/
def pollSessionLoop (fs : Fs) (nowMs : Int) (sid : String) :
    Nat → Nat → Mem → Mem × List Action
  | 0, _, mem => (mem, [])
  | fuel + 1, i, mem =>
    let cur := (jget mem.state.requestsBySession sid).getD []
    if h : i < cur.length then
      let r1 := pollOneRequest fs nowMs mem (cur.get ⟨i, h⟩)
      let r2 := pollSessionLoop fs nowMs sid fuel (i + 1) r1.1
      (r2.1, r1.2 ++ r2.2)
    else (mem, [])

/-- `handleSessionExpired(sessionId, messageIds)`. -/
def handleSessionExpired (mem : Mem) (sid : String) (messageIds : List String) :
    Mem × List Action :=
  let delActs := messageIds.map (fun mid => Action.deleteTg mem.state.chatId (.str mid))
  let state1 := messageIds.foldl
    (fun st mid => { st with pendingRequests := jdel st.pendingRequests mid }) mem.state
  let ws1 := messageIds.foldl (fun w mid => jdel w (MKey.str mid)) mem.waitingSockets
  let state2 := { state1 with requestsBySession := jdel state1.requestsBySession sid }
  ({ mem with state := state2, waitingSockets := ws1 },
   [Action.sendTg mem.state.chatId "⚠️ Session ended - pending requests expired"] ++
     delActs ++ [.persist state2])

/-- `checkSessionValidity(sessionId, messageIds)`. -/
def checkSessionValidity (fs : Fs) (mem : Mem) (sid : String) : Mem × List Action :=
  let messageIds := (jget mem.state.requestsBySession sid).getD []
  match messageIds.head? with
  | none => (mem, [])
  | some first =>
    match jget mem.state.pendingRequests first with
    | none => (mem, [])
    | some firstRequest =>
      match firstRequest.terminalId with
      | none => (mem, [])
      | some termId =>
        if termId.isEmpty then (mem, [])
        else
          match jget fs.bindings termId with
          | some (.bindObj sidOpt) =>
            if jsEqOptStr sidOpt (some sid) then (mem, [])
            else handleSessionExpired mem sid messageIds
          | some .malformedBind => handleSessionExpired mem sid messageIds
          | none => handleSessionExpired mem sid messageIds

/-- One session group of `pollTranscripts`: the request loop, then the
session-validity check guarded on the first remaining request. -/
def pollSession (fs : Fs) (nowMs : Int) (mem : Mem) (sid : String) : Mem × List Action :=
  let cur := (jget mem.state.requestsBySession sid).getD []
  let r1 := pollSessionLoop fs nowMs sid cur.length 0 mem
  let mem1 := r1.1
  let a1 := r1.2
  let cur1 := (jget mem1.state.requestsBySession sid).getD []
  match cur1.head? with
  | none => (mem1, a1)
  | some first =>
    match jget mem1.state.pendingRequests first with
    | none => (mem1, a1)
    | some _ =>
      let r2 := checkSessionValidity fs mem1 sid
      (r2.1, a1 ++ r2.2)

/-- One `pollTranscripts()` tick over the session snapshot. -/
def pollTranscripts (fs : Fs) (nowMs : Int) (mem : Mem) : Mem × List Action :=
  (jkeys mem.state.requestsBySession).foldl
    (fun acc sid =>
      let r := pollSession fs nowMs acc.1 sid
      (r.1, acc.2 ++ r.2))
    (mem, [])

/-- `handleSocketDisconnect(socket)`. Note that the daemon never calls
`registry.addPendingRequest`, so the registry's pending map is empty in
every reachable state and the final assignment replaces
`state.pendingRequests` with the export of an empty map. -/
def handleSocketDisconnect (mem : Mem) (sockSid : Nat) : Mem × List Action :=
  match jget mem.socketToMessageIds sockSid with
  | none => (mem, [])
  | some messageIds =>
    if messageIds.isEmpty then (mem, [])
    else
      let step := fun (acc : Mem × List Action) (mid : MKey) =>
        match jget acc.1.waitingSockets mid with
        | some _w =>
          let m1 := { acc.1 with registry := acc.1.registry.removePendingByMessageId mid,
                                 waitingSockets := jdel acc.1.waitingSockets mid }
          let a1 := if truthyInt acc.1.state.chatId then
              acc.2 ++ [Action.deleteTg acc.1.state.chatId mid]
            else acc.2
          (m1, a1)
        | none => acc
      let folded := messageIds.foldl step (mem, [])
      let mem2 := { folded.1 with socketToMessageIds := jdel folded.1.socketToMessageIds sockSid }
      let state1 := { mem2.state with pendingRequests := mem2.registry.exportPendingRequests }
      ({ mem2 with state := state1 }, folded.2 ++ [.persist state1])

/-- The body of the permission timeout armed in step 10 of the permission
path, with the values it closed over as inputs. -/
def permissionTimeoutFire (mem : Mem) (messageIdNum : Int)
    (session_id request_id : Option String) (sockSid : Nat) : Mem × List Action :=
  match jget mem.waitingSockets (.num messageIdNum) with
  | none => (mem, [])
  | some waiting =>
    let mem1 := { mem with waitingSockets := jdel mem.waitingSockets (.num messageIdNum) }
    let mem2 :=
      match jget mem1.socketToMessageIds sockSid with
      | some ids =>
        let ids' := ids.filter (· ≠ MKey.num messageIdNum)
        { mem1 with socketToMessageIds := jset mem1.socketToMessageIds sockSid ids' }
      | none => mem1
    let state1 := removeFromDualIndex mem2.state (.num messageIdNum) session_id
    let delActs :=
      if truthyInt state1.chatId then [Action.deleteTg state1.chatId (.num messageIdNum)]
      else []
    let replyActs :=
      match waiting.socket with
      | some s =>
        if !s.destroyed then
          [Action.reply (some s)
            { request_id := request_id, status := "timeout_retry",
              message := some "No response within timeout" }]
        else []
      | none => []
    ({ mem2 with state := state1 }, delActs ++ [.persist state1] ++ replyActs)

/-- The body of the stop timeout: it deletes the notification and answers
`stop`, but does not remove the pending from the dual index nor persist
(as in the source). -/
def stopTimeoutFire (mem : Mem) (messageIdNum : Int) (request_id : Option String)
    (sockSid : Nat) : Mem × List Action :=
  match jget mem.waitingSockets (.num messageIdNum) with
  | none => (mem, [])
  | some waiting =>
    let mem1 := { mem with waitingSockets := jdel mem.waitingSockets (.num messageIdNum) }
    let mem2 :=
      match jget mem1.socketToMessageIds sockSid with
      | some ids =>
        let ids' := ids.filter (· ≠ MKey.num messageIdNum)
        { mem1 with socketToMessageIds := jset mem1.socketToMessageIds sockSid ids' }
      | none => mem1
    let delActs :=
      if truthyInt mem2.state.chatId then [Action.deleteTg mem2.state.chatId (.num messageIdNum)]
      else []
    (mem2, delActs ++
      [Action.reply waiting.socket { request_id := request_id, status := "stop" }])

/-- Daemon startup (`start()` after the lock): import the persisted AFK
set, notify once per orphaned pending, clear both indices, persist. -/
def bootMem (ctx : DaemonCtx) (loaded : DaemonState) : Mem × List Action :=
  let registry1 := Registry.importState {} loaded.afkSessions
  let mem0 : Mem := { state := loaded, registry := registry1 }
  let hasPending := !loaded.pendingRequests.isEmpty
  let hasStale := !loaded.requestsBySession.isEmpty
  if hasPending || hasStale then
    let notifyActs :=
      if hasPending && ctx.telegramConfigured && truthyInt loaded.chatId then
        loaded.pendingRequests.map (fun kv =>
          Action.sendTg loaded.chatId ("⚠️ Daemon restarted. Previous request expired:\n" ++
            (kv.2.tool.getD "undefined") ++ ": " ++ jsOrStr kv.2.command "(no command)" ++
            "\nPlease re-run the command if still needed."))
      else []
    let state1 := { loaded with pendingRequests := [], requestsBySession := [] }
    ({ mem0 with state := state1 }, notifyActs ++ [.persist state1])
  else (mem0, [])

/-- One public mutation of the daemon, as a relation between memories.
Timer firings carry the values their closures captured (any instantiation
is allowed, which only over-approximates the reachable set). The `status`
request is read-only and the unknown-type branch only responds, so neither
appears. -/
inductive DStep (ctx : DaemonCtx) : Mem → Mem → Prop
  | permission (m : Mem) (fs : Fs) (msg : PermMsg) (sendResult : Except String Int)
      (b1 b2 : Nat) (nowIso : String) (sock : SocketRef) :
      DStep ctx m (handlePermissionRequest ctx fs m msg sendResult b1 b2 nowIso sock).mem
  | stopReq (m : Mem) (fs : Fs) (msg : StopMsg) (sendResult : Except String Int)
      (b1 b2 : Nat) (nowIso : String) (sock : SocketRef) :
      DStep ctx m (handleStopRequest ctx fs m msg sendResult b1 b2 nowIso sock).mem
  | enable (m : Mem) (session_id request_id : Option String) (sock : SocketRef) :
      DStep ctx m (handleEnableAfk m session_id request_id sock).mem
  | disable (m : Mem) (session_id request_id : Option String) (sock : SocketRef) :
      DStep ctx m (handleDisableAfk m session_id request_id sock).mem
  | tgTick (m : Mem) (fs : Fs) (now : ℚ) (apiResult : Except String (List TgUpdate)) :
      DStep ctx m (telegramTick ctx fs m now apiResult).1
  | transcriptTick (m : Mem) (fs : Fs) (nowMs : Int) :
      DStep ctx m (pollTranscripts fs nowMs m).1
  | permTimeout (m : Mem) (messageIdNum : Int) (session_id request_id : Option String)
      (sockSid : Nat) :
      DStep ctx m (permissionTimeoutFire m messageIdNum session_id request_id sockSid).1
  | stopTimeout (m : Mem) (messageIdNum : Int) (request_id : Option String) (sockSid : Nat) :
      DStep ctx m (stopTimeoutFire m messageIdNum request_id sockSid).1
  | socketDisconnect (m : Mem) (sockSid : Nat) :
      DStep ctx m (handleSocketDisconnect m sockSid).1

/-- The daemon states reachable from a boot on any persisted state. -/
inductive Reachable (ctx : DaemonCtx) : Mem → Prop
  | boot (loaded : DaemonState) : Reachable ctx (bootMem ctx loaded).1
  | step {m m' : Mem} : Reachable ctx m → DStep ctx m m' → Reachable ctx m'

/-! ### Theorems about the claims -/

theorem hexDigitChar_mem_hex {d : Nat} (h : d < 16) :
    hexDigitChar d ∈ "0123456789abcdef".data := by
  interval_cases d <;> decide

theorem hexByte_length (b : Nat) : (hexByte b).length = 2 := by
  simp [hexByte, String.length]

theorem hexByte_mem_hex (b : Nat) {c : Char} (h : c ∈ (hexByte b).data) :
    c ∈ "0123456789abcdef".data := by
  simp [hexByte, String.mk] at h
  rcases h with h | h
  · exact h ▸ hexDigitChar_mem_hex (Nat.mod_lt _ (by norm_num))
  · exact h ▸ hexDigitChar_mem_hex (Nat.mod_lt _ (by norm_num))

/-- **C9.** Session registration is idempotent: a first `register` for a
session id stores and returns a token of the form
`slugify(projectName) ++ "-" ++ <4 lowercase hex chars>`, and every later
`register` call with the same session id (any project name, any
randomness) returns exactly the same token. -/
theorem register_idempotent_and_token_format
    (r : Registry) (sessionId projectName : String) (b1 b2 : Nat)
    (h : jget r.sessions sessionId = none) :
    (r.register sessionId projectName b1 b2).1 =
      slugify projectName ++ "-" ++ generateRandomSuffix b1 b2 ∧
    (generateRandomSuffix b1 b2).length = 4 ∧
    (∀ c ∈ (generateRandomSuffix b1 b2).data, c ∈ "0123456789abcdef".data) ∧
    (∀ projectName' b1' b2',
      (((r.register sessionId projectName b1 b2).2).register sessionId projectName' b1' b2').1 =
        (r.register sessionId projectName b1 b2).1) := by
  refine ⟨?_, ?_, ?_, ?_⟩
  · simp [Registry.register, h]
  · simp [generateRandomSuffix, String.length_append, hexByte_length]
  · intro c hc
    simp only [generateRandomSuffix] at hc
    rw [String.data_append] at hc
    rcases List.mem_append.mp hc with h' | h'
    · exact hexByte_mem_hex b1 h'
    · exact hexByte_mem_hex b2 h'
  · intro projectName' b1' b2'
    simp [Registry.register, h, jget_jset_self]

/-- Witness for C9 at a concrete registry. -/
theorem register_idempotent_and_token_format_witness :
    (Registry.register {} "sess-1" "My App" 171 254).1 =
      slugify "My App" ++ "-" ++ generateRandomSuffix 171 254 ∧
    (generateRandomSuffix 171 254).length = 4 ∧
    (∀ c ∈ (generateRandomSuffix 171 254).data, c ∈ "0123456789abcdef".data) ∧
    (∀ projectName' b1' b2',
      (((Registry.register {} "sess-1" "My App" 171 254).2).register
        "sess-1" projectName' b1' b2').1 =
        (Registry.register {} "sess-1" "My App" 171 254).1) :=
  register_idempotent_and_token_format {} "sess-1" "My App" 171 254 rfl

/-- **C6.** Any update carrying a dated message whose age exceeds the
staleness threshold is absent from what `getUpdates` hands to processing. -/
theorem stale_updates_discarded
    (th now : ℚ) (raw : List TgUpdate) (u : TgUpdate) (m : TgMessage) (d : Int)
    (updates : List TgUpdate)
    (hm : u.message = some m) (hd : m.date = some d) (hd0 : d ≠ 0)
    (hstale : now - (d : ℚ) > th)
    (hres : getUpdates true th now (.ok raw) = .ok updates) :
    u ∉ updates := by
  intro hu
  simp only [getUpdates, Bool.not_true, Except.map] at hres
  have hup : updates = filterStaleUpdates th now raw := by
    simpa using hres.symm
  subst hup
  have := List.of_mem_filter hu
  simp [hm, hd, hd0, not_lt.mpr, le_of_lt] at this
  · exact absurd this (by simpa using not_le.mpr hstale)

/-- Witness for C6 on a concrete stale update. -/
theorem stale_updates_discarded_witness :
    TgUpdate.mk 9 (some { chatId := some 1, text := some "yes", date := some 600 }) ∉
      filterStaleUpdates 300 1000
        [TgUpdate.mk 9 (some { chatId := some 1, text := some "yes", date := some 600 })] :=
  stale_updates_discarded 300 1000
    [TgUpdate.mk 9 (some { chatId := some 1, text := some "yes", date := some 600 })]
    (TgUpdate.mk 9 (some { chatId := some 1, text := some "yes", date := some 600 }))
    { chatId := some 1, text := some "yes", date := some 600 } 600
    (filterStaleUpdates 300 1000
      [TgUpdate.mk 9 (some { chatId := some 1, text := some "yes", date := some 600 })])
    rfl rfl (by decide) (by norm_num) rfl

/-- **C7.** Verdict parsing after trim and lowercase: `approved` exactly on
`yes`/`y`, `denied` exactly on `no`/`n`, `approved_all` exactly on
`all`/`yes all`/`y all`/`always` and only when the tool is in the
configured bulk-approval list, `none` otherwise; and on an invalid reply
`handleResponse` leaves the state (hence the pending) untouched, sends the
in-chat correction and restores the parked reply entry. -/
theorem permission_verdict_parsing_and_invalid_reply :
    (∀ (cfg : DaemonConfig) (text : String) (toolName : Option String),
      (parsePermissionResponse text (isBulkApprovalAllowed cfg toolName) =
          some .approved ↔ (jsToLower (jsTrim text) = "yes" ∨ jsToLower (jsTrim text) = "y")) ∧
      (parsePermissionResponse text (isBulkApprovalAllowed cfg toolName) =
          some .denied ↔ (jsToLower (jsTrim text) = "no" ∨ jsToLower (jsTrim text) = "n")) ∧
      (parsePermissionResponse text (isBulkApprovalAllowed cfg toolName) =
          some .approved_all ↔ (isBulkApprovalAllowed cfg toolName = true ∧
            (jsToLower (jsTrim text) = "all" ∨ jsToLower (jsTrim text) = "yes all" ∨
             jsToLower (jsTrim text) = "y all" ∨ jsToLower (jsTrim text) = "always"))) ∧
      (parsePermissionResponse text (isBulkApprovalAllowed cfg toolName) = none ↔
        ¬(jsToLower (jsTrim text) = "yes" ∨ jsToLower (jsTrim text) = "y" ∨
          jsToLower (jsTrim text) = "no" ∨ jsToLower (jsTrim text) = "n" ∨
          (isBulkApprovalAllowed cfg toolName = true ∧
            (jsToLower (jsTrim text) = "all" ∨ jsToLower (jsTrim text) = "yes all" ∨
             jsToLower (jsTrim text) = "y all" ∨ jsToLower (jsTrim text) = "always"))))) ∧
    (∀ (fs : Fs) (mem : Mem) (messageIdNum : Int) (waiting : WaitingInfo)
        (text : String) (pending : PendingRequest),
      checkRequestExists mem.state (.num messageIdNum) = some pending →
      waiting.wtype = some .permission →
      parsePermissionResponse text waiting.allowBulkApproval = none →
      (handleResponse fs mem messageIdNum waiting (some text)).mem.state = mem.state ∧
      jget (handleResponse fs mem messageIdNum waiting (some text)).mem.waitingSockets
        (.num messageIdNum) = some waiting ∧
      (handleResponse fs mem messageIdNum waiting (some text)).acts =
        [.sendTg mem.state.chatId (if waiting.allowBulkApproval then
          "Reply 'yes', 'no', or 'all'" else "Reply 'yes' or 'no'")]) := by
  constructor
  · intro cfg text toolName
    simp only [parsePermissionResponse]
    by_cases hy : jsToLower (jsTrim text) = "yes" <;>
    by_cases hy2 : jsToLower (jsTrim text) = "y" <;>
    by_cases hn : jsToLower (jsTrim text) = "no" <;>
    by_cases hn2 : jsToLower (jsTrim text) = "n" <;>
    by_cases ha : jsToLower (jsTrim text) = "all" <;>
    by_cases ha2 : jsToLower (jsTrim text) = "yes all" <;>
    by_cases ha3 : jsToLower (jsTrim text) = "y all" <;>
    by_cases ha4 : jsToLower (jsTrim text) = "always" <;>
    by_cases hb : isBulkApprovalAllowed cfg toolName = true <;>
    simp_all +decide [not_or]
  · intro fs mem messageIdNum waiting text pending hpend hty hparse
    have hw : (waiting.wtype == some RType.permission) = true := by simp [hty]
    unfold handleResponse
    rw [hpend]
    simp only [hw, if_true]
    unfold handleResponsePermission
    simp only [hparse]
    cases hs : waiting.socket with
    | none => simp [jget_jset_self]
    | some s =>
      cases hids : jget mem.socketToMessageIds s.sid <;>
        simp [hids, jget_jset_self]

/-- Fixture: a pending permission request parked under message id 100. -/
def c7Pending : PendingRequest :=
  { sessionId := some "S", tool := some "Bash", command := some "npm test",
    requestType := some .permission }

/-- Fixture: the parked reply entry for message id 100. -/
def c7Waiting : WaitingInfo :=
  { requestId := some "r1", sessionId := some "S", wtype := some .permission,
    toolName := some "Bash", allowBulkApproval := false,
    socket := some { sid := 7 } }

/-- Fixture: a daemon memory with exactly that pending request. -/
def c7Mem : Mem :=
  let st : DaemonState :=
    { chatId := some 1, pendingRequests := [("100", c7Pending)],
      requestsBySession := [("S", ["100"])] }
  { state := st, waitingSockets := [(.num 100, c7Waiting)] }

/-- Witness for C7: an invalid reply (`"maybe"`) leaves the state alone,
sends the correction and restores the parked reply. -/
theorem permission_verdict_parsing_and_invalid_reply_witness :
    (handleResponse {} c7Mem 100 c7Waiting (some "maybe")).mem.state = c7Mem.state ∧
    jget (handleResponse {} c7Mem 100 c7Waiting (some "maybe")).mem.waitingSockets
      (.num 100) = some c7Waiting ∧
    (handleResponse {} c7Mem 100 c7Waiting (some "maybe")).acts =
      [.sendTg c7Mem.state.chatId (if c7Waiting.allowBulkApproval then
        "Reply 'yes', 'no', or 'all'" else "Reply 'yes' or 'no'")] :=
  permission_verdict_parsing_and_invalid_reply.2 {} c7Mem 100 c7Waiting "maybe" c7Pending
    (by decide) (by decide) (by decide)

/-- **C8.** For a stop reply longer than 2000 characters delivered to a
live parked channel: the pending is removed from the dual index and the
state persisted before the reply frame is sent; the delivered
`instructions` are the first 1997 characters of the text followed by an
ellipsis — 2000 characters in all — and then a visible suffix naming the
truncation and the original length. -/
theorem stop_reply_truncation_and_order
    (fs : Fs) (mem : Mem) (messageIdNum : Int) (waiting : WaitingInfo)
    (pending : PendingRequest) (text : String) (s : SocketRef)
    (hpend : checkRequestExists mem.state (.num messageIdNum) = some pending)
    (hty : waiting.wtype = some .stop)
    (hsock : waiting.socket = some s) (halive : s.destroyed = false)
    (hlen : text.length > 2000) :
    (handleResponse fs mem messageIdNum waiting (some text)).acts =
      [.persist (removeFromDualIndex mem.state (.num messageIdNum) waiting.sessionId),
       .reply (some s)
         { request_id := waiting.requestId, status := "continue",
           instructions := some (jsSubstring0 text 1997 ++
             "... (truncated, original was " ++ toString text.length ++ " chars)") }] ∧
    (handleResponse fs mem messageIdNum waiting (some text)).mem.state =
      removeFromDualIndex mem.state (.num messageIdNum) waiting.sessionId ∧
    (jsSubstring0 text 1997 ++ "...").length = 2000 ∧
    (jsSubstring0 text 1997 ++ "... (truncated, original was " ++
      toString text.length ++ " chars)").data.take 2000 =
      (jsSubstring0 text 1997 ++ "...").data ∧
    (jsSubstring0 text 1997 ++ "... (truncated, original was " ++
      toString text.length ++ " chars)").data.drop 2000 =
      (" (truncated, original was " ++ toString text.length ++ " chars)").data := by
  have hw : (waiting.wtype == some RType.permission) = false := by simp [hty]
  have hw2 : (waiting.wtype == some RType.stop) = true := by simp [hty]
  have hdlen : text.data.length > 2000 := hlen
  have htake : (text.data.take 1997).length = 1997 := by
    rw [List.length_take]
    omega
  have hsubLen : (jsSubstring0 text 1997).length = 1997 := htake
  refine ⟨?_, ?_, ?_, ?_, ?_⟩
  · unfold handleResponse
    rw [hpend]
    simp only [hw, Bool.false_eq_true, if_false, hw2, if_true]
    unfold handleResponseStop
    simp only [hsock]
    cases hids : jget mem.socketToMessageIds s.sid <;>
      (simp only [hids]; rw [if_pos hlen]; simp [halive])
  · unfold handleResponse
    rw [hpend]
    simp only [hw, Bool.false_eq_true, if_false, hw2, if_true]
    unfold handleResponseStop
    simp only [hsock]
    cases hids : jget mem.socketToMessageIds s.sid <;>
      (simp only [hids]
       try rw [if_pos hlen]
       try simp [halive])
  · rw [String.length_append, hsubLen]
    decide
  · have hle : (text.data.take 1997).length ≤ 2000 := by rw [htake]; norm_num
    simp only [jsSubstring0, String.data_append, List.append_assoc]
    rw [List.take_append_eq_append_take, List.take_of_length_le hle, htake]
    rw [show (2000 - 1997 : Nat) = 3 from by norm_num]
    rfl
  · have hle : (text.data.take 1997).length ≤ 2000 := by rw [htake]; norm_num
    simp only [jsSubstring0, String.data_append, List.append_assoc]
    rw [List.drop_append_eq_append_drop, List.drop_eq_nil_of_le hle, htake]
    rw [show (2000 - 1997 : Nat) = 3 from by norm_num]
    rw [List.drop_append_eq_append_drop]
    rw [show ("... (truncated, original was ".data.length) = 29 from by decide]
    rw [show (3 - 29 : Nat) = 0 from by norm_num]
    rw [show ("... (truncated, original was ".data.drop 3) =
      " (truncated, original was ".data from by decide]
    simp

/-- Fixture: a pending stop request under message id 100. -/
def c8Pending : PendingRequest :=
  { sessionId := some "S", requestType := some .stop, transcriptPath := some "/t.jsonl",
    lastCheckedOffset := some 0 }

/-- Fixture: its parked reply entry, with a live socket. -/
def c8Waiting : WaitingInfo :=
  { requestId := some "r8", sessionId := some "S", wtype := some .stop,
    socket := some { sid := 9 } }

/-- Fixture: the daemon memory holding it. -/
def c8Mem : Mem :=
  let st : DaemonState :=
    { chatId := some 1, pendingRequests := [("100", c8Pending)],
      requestsBySession := [("S", ["100"])] }
  { state := st, waitingSockets := [(.num 100, c8Waiting)] }

/-- Fixture: a 2001-character stop reply. -/
def c8Text : String := String.mk (List.replicate 2001 'a')

/-- Witness for C8 on the 2001-character reply. -/
theorem stop_reply_truncation_and_order_witness :
    (handleResponse {} c8Mem 100 c8Waiting (some c8Text)).acts =
      [.persist (removeFromDualIndex c8Mem.state (.num 100) c8Waiting.sessionId),
       .reply (some { sid := 9 })
         { request_id := c8Waiting.requestId, status := "continue",
           instructions := some (jsSubstring0 c8Text 1997 ++
             "... (truncated, original was " ++ toString c8Text.length ++ " chars)") }] ∧
    (handleResponse {} c8Mem 100 c8Waiting (some c8Text)).mem.state =
      removeFromDualIndex c8Mem.state (.num 100) c8Waiting.sessionId ∧
    (jsSubstring0 c8Text 1997 ++ "...").length = 2000 ∧
    (jsSubstring0 c8Text 1997 ++ "... (truncated, original was " ++
      toString c8Text.length ++ " chars)").data.take 2000 =
      (jsSubstring0 c8Text 1997 ++ "...").data ∧
    (jsSubstring0 c8Text 1997 ++ "... (truncated, original was " ++
      toString c8Text.length ++ " chars)").data.drop 2000 =
      (" (truncated, original was " ++ toString c8Text.length ++ " chars)").data :=
  stop_reply_truncation_and_order {} c8Mem 100 c8Waiting c8Pending c8Text
    { sid := 9 } (by decide) (by decide) (by decide) (by decide)
    (by rw [show c8Text.length = (List.replicate 2001 'a').length from rfl,
          List.length_replicate]
        norm_num)

/-- The message of the Telegram conflict error as surfaced by the adapter. -/
def c5Err : String := "Telegram API error: Conflict: terminated by other getUpdates request"

/-- Fixture: a paired daemon memory. -/
def c5Mem : Mem := { state := { chatId := some 12345 } }

/-- First, second and third consecutive conflicting polls. -/
def c5T1 : Mem × List Action × TickOutcome := telegramTick {} {} c5Mem 0 (.error c5Err)

def c5T2 : Mem × List Action × TickOutcome := telegramTick {} {} c5T1.1 0 (.error c5Err)

def c5T3 : Mem × List Action × TickOutcome := telegramTick {} {} c5T2.1 0 (.error c5Err)

/-- **C5 (code bug).** On the third consecutive conflict error the daemon
notifies the paired user once — and then crashes on the call to the
undefined `shutdown` binding: `process.exit(0)` is never reached, so the
tick ends in an unhandled `ReferenceError` rather than a zero exit. -/
theorem conflict_notifies_then_crashes_never_exits_zero :
    c5T1.2.2 = .ranToEnd ∧ c5T1.1.consecutiveConflictErrors = 1 ∧ c5T1.2.1 = [] ∧
    c5T2.2.2 = .ranToEnd ∧ c5T2.1.consecutiveConflictErrors = 2 ∧ c5T2.2.1 = [] ∧
    c5T3.2.2 = .crashedUnhandled "ReferenceError: shutdown is not defined" ∧
    c5T3.2.1 = [Action.sendTg (some 12345) "⚠️ Claude AFK detected another bot instance polling.\n\nThis daemon is shutting down. The other instance will handle notifications.\n\nIf this was unexpected, check for daemons running on other machines."] ∧
    Action.exitProcess 0 ∉ c5T3.2.1 := by
  decide

/-- Fixture: a daemon already paired with chat 1. -/
def c2Mem : Mem := { state := { chatId := some 1 } }

/-- Fixture: `/start` arriving from a different chat. -/
def c2Update : TgUpdate :=
  { updateId := 5, message := some { chatId := some 2, text := some "/start" } }

/-- **C2 counterexample.** With chat 1 already paired, a `/start` from chat
2 re-pairs the daemon to chat 2: `paired-chat-id` is not write-once. -/
theorem start_overwrites_existing_pairing :
    c2Mem.state.chatId = some 1 ∧
    (processUpdate {} {} c2Mem c2Update).mem.state.chatId = some 2 := by
  decide

theorem removeFromDualIndex_chatId (s : DaemonState) (k : MKey) (sid : Option String) :
    (removeFromDualIndex s k sid).chatId = s.chatId := by
  unfold removeFromDualIndex
  dsimp only
  split
  · rfl
  · split <;> rfl

theorem addToWhitelist_chatId (s : DaemonState) (sid t : String) :
    (addToWhitelist s sid t).1.chatId = s.chatId := by
  unfold addToWhitelist
  dsimp only
  split <;> rfl

theorem handleResponsePermission_chatId (fs : Fs) (m2 : Mem) (mid : Int)
    (w : WaitingInfo) (p : PendingRequest) (t : Option String) :
    (handleResponsePermission fs m2 mid w p t).mem.state.chatId = m2.state.chatId := by
  unfold handleResponsePermission
  cases t with
  | none => rfl
  | some t =>
    cases hp : parsePermissionResponse t w.allowBulkApproval with
    | none =>
      simp only [hp]
    | some d =>
      simp only [hp]
      try dsimp only
      repeat' split
      all_goals simp [removeFromDualIndex_chatId, addToWhitelist_chatId]

theorem handleResponseStop_chatId (fs : Fs) (m2 : Mem) (mid : Int)
    (w : WaitingInfo) (p : PendingRequest) (t : Option String) :
    (handleResponseStop fs m2 mid w p t).mem.state.chatId = m2.state.chatId := by
  unfold handleResponseStop
  cases t with
  | none => simp [removeFromDualIndex_chatId]
  | some t => simp [removeFromDualIndex_chatId]

theorem handleResponse_chatId (fs : Fs) (mem : Mem) (mid : Int) (w : WaitingInfo)
    (t : Option String) :
    (handleResponse fs mem mid w t).mem.state.chatId = mem.state.chatId := by
  unfold handleResponse
  cases hp : checkRequestExists mem.state (.num mid) with
  | none => rfl
  | some pending =>
    simp only
    split
    · cases hs : w.socket with
      | none => simp [handleResponsePermission_chatId]
      | some s =>
        cases hids : jget mem.socketToMessageIds s.sid <;>
          simp [hids, handleResponsePermission_chatId]
    · split
      · cases hs : w.socket with
        | none => simp [handleResponseStop_chatId]
        | some s =>
          cases hids : jget mem.socketToMessageIds s.sid <;>
            simp [hids, handleResponseStop_chatId]
      · cases hs : w.socket with
        | none => rfl
        | some s =>
          cases hids : jget mem.socketToMessageIds s.sid <;> simp [hids]

theorem singlePendingFallback_chatId (ctx : DaemonCtx) (fs : Fs) (mem : Mem)
    (chatId : Option Int) (t : Option String) :
    (singlePendingFallback ctx fs mem chatId t).mem.state.chatId = mem.state.chatId := by
  unfold singlePendingFallback
  try dsimp only
  repeat' split
  all_goals try rfl
  all_goals simp [handleResponse_chatId, removeFromDualIndex_chatId]

/-- **C2 (amended).** Processing a `/start` message with a present, nonzero
chat id always records that chat id as `paired-chat-id`, overwriting any
existing pairing; every other update leaves `paired-chat-id` unchanged. -/
theorem start_pairing_behavior :
    (∀ (ctx : DaemonCtx) (fs : Fs) (mem : Mem) (u : TgUpdate) (m : TgMessage) (c : Int),
      u.message = some m → m.text.map jsTrim = some "/start" → m.chatId = some c →
      c ≠ 0 → (processUpdate ctx fs mem u).mem.state.chatId = some c) ∧
    (∀ (ctx : DaemonCtx) (fs : Fs) (mem : Mem) (u : TgUpdate),
      (∀ m, u.message = some m →
        (m.text.map jsTrim == some "/start" && truthyInt m.chatId) = false) →
      (processUpdate ctx fs mem u).mem.state.chatId = mem.state.chatId) := by
  constructor
  · intro ctx fs mem u m c hm ht hc hc0
    unfold processUpdate
    rw [hm]
    simp only [ht, hc]
    simp [truthyInt, hc0]
  · intro ctx fs mem u hnostart
    unfold processUpdate
    cases hm : u.message with
    | none => rfl
    | some m =>
      simp only
      rw [hnostart m hm]
      simp only [Bool.false_eq_true, if_false]
      split
      · rfl
      · split
        · exact singlePendingFallback_chatId ctx fs mem m.chatId (m.text.map jsTrim)
        · split
          · rfl
          · exact handleResponse_chatId fs mem _ _ (m.text.map jsTrim)

/-- Witness for C2's amended theorem: `/start` from chat 7 pairs to 7, and
a plain text message leaves the pairing alone. -/
theorem start_pairing_behavior_witness :
    (processUpdate {} {} { state := { chatId := some 3 } }
      { updateId := 1, message := some { chatId := some 7, text := some "/start" } }
      ).mem.state.chatId = some 7 ∧
    (processUpdate {} {} { state := { chatId := some 3 } }
      { updateId := 1, message := some { chatId := some 3, text := some "hello" } }
      ).mem.state.chatId = some 3 :=
  ⟨start_pairing_behavior.1 {} {} { state := { chatId := some 3 } }
      { updateId := 1, message := some { chatId := some 7, text := some "/start" } }
      { chatId := some 7, text := some "/start" } 7 rfl (by decide) rfl (by decide),
   start_pairing_behavior.2 {} {} { state := { chatId := some 3 } }
      { updateId := 1, message := some { chatId := some 3, text := some "hello" } }
      (by intro m hm; cases hm; decide)⟩

theorem trackWaitingSocket_state (m : Mem) (k : MKey) (s : SocketRef) (w : WaitingInfo) :
    (trackWaitingSocket m k s w).state = m.state := rfl

/-- Fixture: the repeated permission request. -/
def c3Msg : PermMsg :=
  { session_id := some "S", terminal_id := some "T1", tool_name := some "Bash",
    message := some "npm test", transcript_path := none, cwd := some "/p",
    request_id := some "r1" }

/-- Fixture: the pairing update used to boot the trace. -/
def c3Pair : TgUpdate :=
  { updateId := 1, message := some { chatId := some 1, text := some "/start" } }

/-- The trace: boot on an empty state, pair, enable AFK for `S`, then send
the same permission request twice (message ids 100 and 101). -/
def c3Boot : Mem := (bootMem {} {}).1

def c3M1 : Mem := (telegramTick {} {} c3Boot 0 (.ok [c3Pair])).1

def c3M2 : Mem := (handleEnableAfk c3M1 (some "S") (some "r0") { sid := 5 }).mem

def c3M3 : Mem := (handlePermissionRequest {} {} c3M2 c3Msg (.ok 100) 0 0 "t0" { sid := 7 }).mem

def c3M4 : Mem := (handlePermissionRequest {} {} c3M3 c3Msg (.ok 101) 0 0 "t1" { sid := 8 }).mem

/-- **C3 counterexample.** After a retry below max-retries, the store holds
two pending requests — message ids 100 and 101 — with the same
(session-id, tool-name, command-text) triple, in a reachable state. -/
theorem retry_keeps_two_pendings_per_triple :
    Reachable ({} : DaemonCtx) c3M4 ∧
    (jget c3M4.state.pendingRequests "100").map
      (fun p => (p.sessionId, p.tool, p.command)) =
      some (some "S", some "Bash", some "npm test") ∧
    (jget c3M4.state.pendingRequests "101").map
      (fun p => (p.sessionId, p.tool, p.command)) =
      some (some "S", some "Bash", some "npm test") := by
  refine ⟨?_, by decide, by decide⟩
  exact Reachable.step
    (Reachable.step
      (Reachable.step
        (Reachable.step (Reachable.boot {}) (DStep.tgTick c3Boot {} 0 (.ok [c3Pair])))
        (DStep.enable c3M1 (some "S") (some "r0") { sid := 5 }))
      (DStep.permission c3M2 {} c3Msg (.ok 100) 0 0 "t0" { sid := 7 }))
    (DStep.permission c3M3 {} c3Msg (.ok 101) 0 0 "t1" { sid := 8 })

/-- **C3 (amended).** A permission request matching an existing pending's
triple increments that pending's retry-count. Below max-retries a new
PendingRequest with the same triple is inserted while the matched one
stays in the store (so two pendings per triple coexist); at max-retries
the matched pending is removed and the caller gets `timeout_final`. -/
theorem permission_retry_behavior
    (ctx : DaemonCtx) (fs : Fs) (mem : Mem) (msg : PermMsg) (n : Int)
    (b1 b2 : Nat) (nowIso : String) (sock : SocketRef)
    (req : PendingRequest) (mid : String)
    (hgate1 : (!ctx.config.alwaysEnabled &&
      !mem.registry.isAfkEnabled (jkeyOf msg.session_id)) = false)
    (hgate2 : ctx.telegramConfigured = true)
    (hgate3 : truthyInt mem.state.chatId = true)
    (hgate4 : isToolWhitelisted mem.state msg.session_id msg.tool_name = false)
    (hfind : findExistingPendingRequest mem.state msg.session_id msg.tool_name msg.message =
      some (req, mid)) :
    let req' : PendingRequest := { req with retryCount := some (req.retryCount.getD 0 + 1) }
    (req.retryCount.getD 0 + 1 < ctx.config.maxRetries → toString n ≠ mid →
      (∃ p, jget (handlePermissionRequest ctx fs mem msg (.ok n) b1 b2 nowIso
          sock).mem.state.pendingRequests (toString n) = some p ∧
        p.sessionId = msg.session_id ∧ p.tool = msg.tool_name ∧
        p.command = msg.message ∧ p.requestType = some .permission ∧
        p.retryCount = some (req.retryCount.getD 0 + 1)) ∧
      jget (handlePermissionRequest ctx fs mem msg (.ok n) b1 b2 nowIso
          sock).mem.state.pendingRequests mid = some req') ∧
    (req.retryCount.getD 0 + 1 ≥ ctx.config.maxRetries → ∀ sendRes,
      (handlePermissionRequest ctx fs mem msg sendRes b1 b2 nowIso sock).mem.state =
        removeFromDualIndex
          { mem.state with pendingRequests := jset mem.state.pendingRequests mid req' }
          (.str mid) msg.session_id ∧
      (handlePermissionRequest ctx fs mem msg sendRes b1 b2 nowIso sock).acts.getLast? =
        some (.reply (some sock)
          { request_id := msg.request_id, status := "timeout_final",
            message := some "User unavailable after multiple retries." })) := by
  intro req'
  constructor
  · intro hlt hne
    have hmax : isMaxRetriesExceeded (req.retryCount.getD 0 + 1) ctx.config.maxRetries = false := by
      simp [isMaxRetriesExceeded]
      omega
    unfold handlePermissionRequest
    simp only [hgate1, hgate2, hgate3, hgate4, hfind, Bool.not_true, if_false,
      Bool.false_eq_true, Option.map_some', hmax, if_true]
    unfold permissionSendPhase
    try dsimp only
    simp only [trackWaitingSocket_state]
    constructor
    · refine ⟨_, jget_jset_self _ _ _, ?_, ?_, ?_, ?_, ?_⟩ <;> rfl
    · rw [jget_jset_ne _ _ _ _ (fun h => hne h.symm), jget_jset_self]
  · intro hge sendRes
    have hmax : isMaxRetriesExceeded (req.retryCount.getD 0 + 1) ctx.config.maxRetries = true := by
      simp [isMaxRetriesExceeded]
      omega
    unfold handlePermissionRequest
    simp only [hgate1, hgate2, hgate3, hgate4, hfind, Bool.not_true, if_false,
      Bool.false_eq_true, Option.map_some', hmax, if_true]
    constructor
    · trivial
    · split <;> simp

/-- Fixture: the record stored by the first insert of the trace. -/
def c3Req : PendingRequest :=
  { sessionId := some "S", tool := some "Bash", command := some "npm test",
    toolUseId := none, requestType := some .permission, transcriptPath := none,
    projectDir := some "/p", terminalId := some "T1", lastCheckedOffset := some 0,
    firstRequestAt := some "t0", requestId := some "r1", retryCount := some 0,
    socketAlive := some true }

/-- Witness for C3's amended theorem on the concrete trace. -/
theorem permission_retry_behavior_witness :
    (∃ p, jget (handlePermissionRequest {} {} c3M3 c3Msg (.ok 101) 0 0 "t1"
        { sid := 8 }).mem.state.pendingRequests "101" = some p ∧
      p.sessionId = c3Msg.session_id ∧ p.tool = c3Msg.tool_name ∧
      p.command = c3Msg.message ∧ p.requestType = some .permission ∧
      p.retryCount = some (c3Req.retryCount.getD 0 + 1)) ∧
    jget (handlePermissionRequest {} {} c3M3 c3Msg (.ok 101) 0 0 "t1"
        { sid := 8 }).mem.state.pendingRequests "100" =
      some { c3Req with retryCount := some (c3Req.retryCount.getD 0 + 1) } :=
  (permission_retry_behavior {} {} c3M3 c3Msg 101 0 0 "t1" { sid := 8 } c3Req "100"
    (by decide) rfl (by decide) (by decide) (by decide)).1 (by decide) (by decide)

/-- Fixture: a permission request for the disconnect trace. -/
def c1Msg : PermMsg :=
  { session_id := some "S", terminal_id := some "T1", tool_name := some "Bash",
    message := some "npm test", transcript_path := none, cwd := some "/p",
    request_id := some "r1" }

def c1Pair : TgUpdate :=
  { updateId := 1, message := some { chatId := some 1, text := some "/start" } }

def c1Boot : Mem := (bootMem {} {}).1

def c1M1 : Mem := (telegramTick {} {} c1Boot 0 (.ok [c1Pair])).1

def c1M2 : Mem := (handleEnableAfk c1M1 (some "S") (some "r0") { sid := 5 }).mem

def c1M3 : Mem := (handlePermissionRequest {} {} c1M2 c1Msg (.ok 100) 0 0 "t0" { sid := 7 }).mem

def c1M4 : Mem := (handleSocketDisconnect c1M3 7).1

/-- **C1 (code bug).** In a reachable state with one pending request
(message id 100, session `S`), the disconnect of its socket replaces
`pending-requests` with the export of the (always empty) registry pending
map and never touches `requests-by-session`: afterwards `"100"` is still
listed under `S` but absent from `pending-requests` — the two indices
disagree, violating dual-index consistency. -/
theorem socket_disconnect_breaks_dual_index :
    Reachable ({} : DaemonCtx) c1M4 ∧
    jget c1M4.state.requestsBySession "S" = some ["100"] ∧
    jget c1M4.state.pendingRequests "100" = none ∧
    c1M4.state.pendingRequests = [] ∧
    jget c1M3.state.pendingRequests "100" ≠ none := by
  refine ⟨?_, by decide, by decide, by decide, by decide⟩
  exact Reachable.step
    (Reachable.step
      (Reachable.step
        (Reachable.step (Reachable.boot {}) (DStep.tgTick c1Boot {} 0 (.ok [c1Pair])))
        (DStep.enable c1M1 (some "S") (some "r0") { sid := 5 }))
      (DStep.permission c1M2 {} c1Msg (.ok 100) 0 0 "t0" { sid := 7 }))
    (DStep.socketDisconnect c1M3 7)

/-- Fixture: the transcript at permission time — an assistant tool-use. -/
def c4T1 : Transcript :=
  let blocks : List TBlock :=
    [.toolUse (some "tu1") (some "Bash") (some [("command", JVal.jstr "npm test")])]
  [.entry { etype := some "assistant", content := some (.blocks blocks) }]

/-- Fixture: the transcript later gains the matching tool result. -/
def c4T2 : Transcript :=
  let resultLine : TLine :=
    .entry { etype := some "user", content := some (.blocks [.toolResult (some "tu1") false]) }
  c4T1 ++ [resultLine]

def c4Fs1 : Fs := { transcripts := [("/t.jsonl", c4T1)] }

def c4Fs2 : Fs := { transcripts := [("/t.jsonl", c4T2)] }

/-- Fixture: the permission request bound to that transcript. -/
def c4Msg : PermMsg :=
  { session_id := some "S", terminal_id := some "T1", tool_name := some "Bash",
    message := some "npm test", transcript_path := some "/t.jsonl", cwd := some "/p",
    request_id := some "r1" }

def c4Pair : TgUpdate :=
  { updateId := 1, message := some { chatId := some 1, text := some "/start" } }

def c4Boot : Mem := (bootMem {} {}).1

def c4M1 : Mem := (telegramTick {} {} c4Boot 0 (.ok [c4Pair])).1

def c4M2 : Mem := (handleEnableAfk c4M1 (some "S") (some "r0") { sid := 5 }).mem

def c4M3 : Mem := (handlePermissionRequest {} c4Fs1 c4M2 c4Msg (.ok 100) 0 0 "t0" { sid := 7 }).mem

/-- The waiting entry parked for message id 100 (live socket 7). -/
def c4Waiting : WaitingInfo :=
  { requestId := some "r1", sessionId := some "S", wtype := some .permission,
    toolName := some "Bash", allowBulkApproval := false,
    socket := some { sid := 7 } }

/-- Whether an action is a reply frame written to a hook. -/
def isReplyAction : Action → Bool
  | .reply _ _ => true
  | _ => false

/-- **C4 (code bug).** In a reachable state with a live parked channel for
message id 100 and a matching `tool_result` freshly appended after the
last scanned offset, the transcript-poll tick removes the pending from the
dual index, deletes the remote message and persists — but it sends no
`resolved_locally` frame and leaves the parked entry behind, because it
looks `waitingSockets` up with the string key `"100"` while the map is
keyed by the number `100`. -/
theorem transcript_resolution_never_notifies_live_channel :
    Reachable ({} : DaemonCtx) c4M3 ∧
    jget c4M3.waitingSockets (.num 100) = some c4Waiting ∧
    (findToolResult c4T2 (some "tu1") (some 0)).found = true ∧
    (pollTranscripts c4Fs2 0 c4M3).2 =
      [Action.deleteTg (some 1) (.str "100"),
       Action.persist (removeFromDualIndex c4M3.state (.str "100") (some "S"))] ∧
    ((pollTranscripts c4Fs2 0 c4M3).2.all (fun a => !isReplyAction a)) = true ∧
    jget (pollTranscripts c4Fs2 0 c4M3).1.state.pendingRequests "100" = none ∧
    jget (pollTranscripts c4Fs2 0 c4M3).1.state.requestsBySession "S" = none ∧
    jget (pollTranscripts c4Fs2 0 c4M3).1.waitingSockets (.num 100) = some c4Waiting := by
  refine ⟨?_, by decide, by decide, by decide, by decide, by decide, by decide, by decide⟩
  exact Reachable.step
    (Reachable.step
      (Reachable.step (Reachable.boot {}) (DStep.tgTick c4Boot {} 0 (.ok [c4Pair])))
      (DStep.enable c4M1 (some "S") (some "r0") { sid := 5 }))
    (DStep.permission c4M2 c4Fs1 c4Msg (.ok 100) 0 0 "t0" { sid := 7 })

/-- All values of a `requests-by-session` map are non-empty sequences. -/
def NEL (m : JMap String (List String)) : Prop :=
  ∀ p ∈ m, p.2 ≠ ([] : List String)

theorem NEL_nil : NEL [] := by intro p hp; cases hp

theorem NEL_jdel {m : JMap String (List String)} (h : NEL m) (k : String) :
    NEL (jdel m k) := fun p hp => h p (mem_jdel hp)

theorem NEL_jset {m : JMap String (List String)} (h : NEL m) {l : List String}
    (hl : l ≠ []) (k : String) : NEL (jset m k l) := by
  intro p hp
  rcases mem_jset hp with h' | h'
  · exact h p h'
  · rw [h']
    exact hl

theorem removeFromDualIndex_NEI {s : DaemonState} (h : NEL s.requestsBySession)
    (k : MKey) (sid : Option String) :
    NEL (removeFromDualIndex s k sid).requestsBySession := by
  unfold removeFromDualIndex
  dsimp only
  split
  · exact h
  · split
    · exact NEL_jdel h _
    · next heq hne =>
      refine NEL_jset h ?_ _
      simpa using hne

theorem setOffsetIfPresent_rbs (s : DaemonState) (k : String) (off : Nat) :
    (setOffsetIfPresent s k off).requestsBySession = s.requestsBySession := by
  unfold setOffsetIfPresent
  split <;> rfl

theorem addToWhitelist_rbs (s : DaemonState) (sid t : String) :
    (addToWhitelist s sid t).1.requestsBySession = s.requestsBySession := by
  unfold addToWhitelist
  dsimp only
  split <;> rfl

theorem clearWhitelist_rbs (s : DaemonState) (sid : Option String) :
    (clearWhitelist s sid).1.requestsBySession = s.requestsBySession := by
  unfold clearWhitelist
  split <;> rfl

theorem foldl_preserve {α β : Type} (P : β → Prop) (f : β → α → β)
    (h : ∀ b a, P b → P (f b a)) : ∀ (l : List α) (b : β), P b → P (l.foldl f b) := by
  intro l
  induction l with
  | nil => intro b hb; exact hb
  | cons x xs ih => intro b hb; exact ih (f b x) (h b x hb)

theorem permissionSendPhase_NEI (ctx : DaemonCtx) (fs : Fs) (mem : Mem) (msg : PermMsg)
    (sendResult : Except String Int) (b1 b2 : Nat) (nowIso : String) (sock : SocketRef)
    (carried : Option Nat) (h : NEL mem.state.requestsBySession) :
    NEL (permissionSendPhase ctx fs mem msg sendResult b1 b2 nowIso
      sock carried).mem.state.requestsBySession := by
  unfold permissionSendPhase
  try dsimp only
  split
  · exact h
  · simp only [trackWaitingSocket_state]
    exact NEL_jset h (by simp) _

theorem handlePermissionRequest_NEI (ctx : DaemonCtx) (fs : Fs) (mem : Mem) (msg : PermMsg)
    (sendResult : Except String Int) (b1 b2 : Nat) (nowIso : String) (sock : SocketRef)
    (h : NEL mem.state.requestsBySession) :
    NEL (handlePermissionRequest ctx fs mem msg sendResult b1 b2 nowIso
      sock).mem.state.requestsBySession := by
  unfold handlePermissionRequest
  try dsimp only
  repeat' split
  all_goals try exact h
  all_goals first
    | (apply removeFromDualIndex_NEI
       exact h)
    | (apply permissionSendPhase_NEI
       exact h)

theorem handleStopRequest_NEI (ctx : DaemonCtx) (fs : Fs) (mem : Mem) (msg : StopMsg)
    (sendResult : Except String Int) (b1 b2 : Nat) (nowIso : String) (sock : SocketRef)
    (h : NEL mem.state.requestsBySession) :
    NEL (handleStopRequest ctx fs mem msg sendResult b1 b2 nowIso
      sock).mem.state.requestsBySession := by
  unfold handleStopRequest
  try dsimp only
  repeat' split
  all_goals try exact h
  all_goals simp only [trackWaitingSocket_state]
  all_goals exact NEL_jset h (by simp) _

theorem handleEnableAfk_NEI (mem : Mem) (sid rid : Option String) (sock : SocketRef)
    (h : NEL mem.state.requestsBySession) :
    NEL (handleEnableAfk mem sid rid sock).mem.state.requestsBySession := h

theorem handleDisableAfk_NEI (mem : Mem) (sid rid : Option String) (sock : SocketRef)
    (h : NEL mem.state.requestsBySession) :
    NEL (handleDisableAfk mem sid rid sock).mem.state.requestsBySession := by
  unfold handleDisableAfk
  try dsimp only
  show NEL (clearWhitelist mem.state sid).1.requestsBySession
  rw [clearWhitelist_rbs]
  exact h

theorem addToWhitelist_NEI {s : DaemonState} (h : NEL s.requestsBySession)
    (sid t : String) : NEL (addToWhitelist s sid t).1.requestsBySession := by
  rw [addToWhitelist_rbs]
  exact h

theorem setOffsetIfPresent_NEI {s : DaemonState} (h : NEL s.requestsBySession)
    (k : String) (off : Nat) : NEL (setOffsetIfPresent s k off).requestsBySession := by
  rw [setOffsetIfPresent_rbs]
  exact h

theorem handleResponsePermission_NEI (fs : Fs) (m2 : Mem) (mid : Int) (w : WaitingInfo)
    (p : PendingRequest) (t : Option String) (h : NEL m2.state.requestsBySession) :
    NEL (handleResponsePermission fs m2 mid w p t).mem.state.requestsBySession := by
  unfold handleResponsePermission
  cases t with
  | none => exact h
  | some t =>
    cases hp : parsePermissionResponse t w.allowBulkApproval with
    | none => simp only [hp]; exact h
    | some d =>
      simp only [hp]
      try dsimp only
      repeat' split
      all_goals apply removeFromDualIndex_NEI
      all_goals first
        | exact h
        | (apply addToWhitelist_NEI; exact h)

theorem handleResponseStop_NEI (fs : Fs) (m2 : Mem) (mid : Int) (w : WaitingInfo)
    (p : PendingRequest) (t : Option String) (h : NEL m2.state.requestsBySession) :
    NEL (handleResponseStop fs m2 mid w p t).mem.state.requestsBySession := by
  unfold handleResponseStop
  try dsimp only
  repeat' split
  all_goals apply removeFromDualIndex_NEI
  all_goals exact h

theorem handleResponse_NEI (fs : Fs) (mem : Mem) (mid : Int) (w : WaitingInfo)
    (t : Option String) (h : NEL mem.state.requestsBySession) :
    NEL (handleResponse fs mem mid w t).mem.state.requestsBySession := by
  unfold handleResponse
  cases hc : checkRequestExists mem.state (.num mid) with
  | none => exact h
  | some pending =>
    try dsimp only
    repeat' split
    all_goals try exact h
    all_goals first
      | (apply handleResponsePermission_NEI
         exact h)
      | (apply handleResponseStop_NEI
         exact h)

theorem singlePendingFallback_NEI (ctx : DaemonCtx) (fs : Fs) (mem : Mem)
    (chatId : Option Int) (t : Option String) (h : NEL mem.state.requestsBySession) :
    NEL (singlePendingFallback ctx fs mem chatId t).mem.state.requestsBySession := by
  unfold singlePendingFallback
  try dsimp only
  repeat' split
  all_goals try exact h
  all_goals first
    | (apply handleResponse_NEI
       exact h)
    | (apply removeFromDualIndex_NEI
       exact h)

theorem processUpdate_NEI (ctx : DaemonCtx) (fs : Fs) (mem : Mem) (u : TgUpdate)
    (h : NEL mem.state.requestsBySession) :
    NEL (processUpdate ctx fs mem u).mem.state.requestsBySession := by
  unfold processUpdate
  try dsimp only
  repeat' split
  all_goals try exact h
  all_goals first
    | (apply singlePendingFallback_NEI
       exact h)
    | (apply handleResponse_NEI
       exact h)

theorem runUpdatesLoop_NEI (ctx : DaemonCtx) (fs : Fs) :
    ∀ (us : List TgUpdate) (mem : Mem) (acts : List Action),
      NEL mem.state.requestsBySession →
      NEL (runUpdatesLoop ctx fs mem acts us).1.state.requestsBySession := by
  intro us
  induction us with
  | nil => intro mem acts h; exact h
  | cons u rest ih =>
    intro mem acts h
    unfold runUpdatesLoop
    try dsimp only
    split
    · apply processUpdate_NEI
      exact h
    · apply ih
      apply processUpdate_NEI
      exact h

theorem conflictCatch_state (mem : Mem) (acts : List Action) (e : String) :
    (conflictCatch mem acts e).1.state = mem.state := by
  unfold conflictCatch
  try dsimp only
  repeat' split
  all_goals rfl

theorem processTelegramUpdates_NEI (ctx : DaemonCtx) (fs : Fs) (mem : Mem)
    (poll : Except String (List TgUpdate)) (h : NEL mem.state.requestsBySession) :
    NEL (processTelegramUpdates ctx fs mem poll).1.state.requestsBySession := by
  unfold processTelegramUpdates
  split
  · exact h
  · cases poll with
    | error e =>
      try dsimp only
      rw [show (conflictCatch mem [] e).1.state = mem.state from conflictCatch_state _ _ _]
      exact h
    | ok updates =>
      try dsimp only
      split
      · next mem1 acts heq =>
        have hx := runUpdatesLoop_NEI ctx fs updates
          { mem with consecutiveConflictErrors := 0 } [] h
        rw [heq] at hx
        exact hx
      · next mem1 acts e heq =>
        have hx := runUpdatesLoop_NEI ctx fs updates
          { mem with consecutiveConflictErrors := 0 } [] h
        rw [heq] at hx
        rw [show (conflictCatch mem1 acts e).1.state = mem1.state from conflictCatch_state _ _ _]
        exact hx

theorem telegramTick_NEI (ctx : DaemonCtx) (fs : Fs) (mem : Mem) (now : ℚ)
    (apiResult : Except String (List TgUpdate)) (h : NEL mem.state.requestsBySession) :
    NEL (telegramTick ctx fs mem now apiResult).1.state.requestsBySession :=
  processTelegramUpdates_NEI ctx fs mem _ h

theorem handleLocalResolution_NEI (mem : Mem) (midKey : MKey) (request : PendingRequest)
    (res : String) (h : NEL mem.state.requestsBySession) :
    NEL (handleLocalResolution mem midKey request res).1.state.requestsBySession := by
  unfold handleLocalResolution
  try dsimp only
  apply removeFromDualIndex_NEI
  exact h

theorem checkPermissionResolution_NEI (fs : Fs) (nowMs : Int) (mem : Mem) (midKey : MKey)
    (request : PendingRequest) (h : NEL mem.state.requestsBySession) :
    NEL (checkPermissionResolution fs nowMs mem midKey request).1.state.requestsBySession := by
  unfold checkPermissionResolution
  try dsimp only
  repeat' split
  all_goals first
    | exact h
    | (apply handleLocalResolution_NEI
       exact h)
    | (apply setOffsetIfPresent_NEI
       exact h)

theorem checkStopResolution_NEI (fs : Fs) (mem : Mem) (midKey : MKey)
    (request : PendingRequest) (h : NEL mem.state.requestsBySession) :
    NEL (checkStopResolution fs mem midKey request).1.state.requestsBySession := by
  unfold checkStopResolution
  try dsimp only
  repeat' split
  all_goals first
    | exact h
    | (apply setOffsetIfPresent_NEI
       first
         | exact h
         | (apply handleLocalResolution_NEI
            exact h))

theorem pollOneRequest_NEI (fs : Fs) (nowMs : Int) (mem : Mem) (mid : String)
    (h : NEL mem.state.requestsBySession) :
    NEL (pollOneRequest fs nowMs mem mid).1.state.requestsBySession := by
  unfold pollOneRequest
  try dsimp only
  repeat' split
  all_goals first
    | exact h
    | (apply handleLocalResolution_NEI
       exact h)
    | (apply checkPermissionResolution_NEI
       exact h)
    | (apply checkStopResolution_NEI
       exact h)

theorem pollSessionLoop_NEI (fs : Fs) (nowMs : Int) (sid : String) :
    ∀ (fuel i : Nat) (mem : Mem), NEL mem.state.requestsBySession →
      NEL (pollSessionLoop fs nowMs sid fuel i mem).1.state.requestsBySession := by
  intro fuel
  induction fuel with
  | zero => intro i mem h; exact h
  | succ n ih =>
    intro i mem h
    unfold pollSessionLoop
    try dsimp only
    split
    · apply ih
      apply pollOneRequest_NEI
      exact h
    · exact h

theorem foldl_delPending_rbs (l : List String) (s : DaemonState) :
    (l.foldl (fun st mid => { st with pendingRequests := jdel st.pendingRequests mid })
        s).requestsBySession = s.requestsBySession := by
  induction l generalizing s with
  | nil => rfl
  | cons x xs ih => exact ih _

theorem handleSessionExpired_NEI (mem : Mem) (sid : String) (messageIds : List String)
    (h : NEL mem.state.requestsBySession) :
    NEL (handleSessionExpired mem sid messageIds).1.state.requestsBySession := by
  unfold handleSessionExpired
  try dsimp only
  rw [foldl_delPending_rbs]
  exact NEL_jdel h sid

theorem checkSessionValidity_NEI (fs : Fs) (mem : Mem) (sid : String)
    (h : NEL mem.state.requestsBySession) :
    NEL (checkSessionValidity fs mem sid).1.state.requestsBySession := by
  unfold checkSessionValidity
  try dsimp only
  repeat' split
  all_goals first
    | exact h
    | (apply handleSessionExpired_NEI
       exact h)

theorem pollSession_NEI (fs : Fs) (nowMs : Int) (mem : Mem) (sid : String)
    (h : NEL mem.state.requestsBySession) :
    NEL (pollSession fs nowMs mem sid).1.state.requestsBySession := by
  unfold pollSession
  try dsimp only
  repeat' split
  all_goals first
    | (apply pollSessionLoop_NEI
       exact h)
    | (apply checkSessionValidity_NEI
       apply pollSessionLoop_NEI
       exact h)

theorem pollTranscripts_NEI (fs : Fs) (nowMs : Int) (mem : Mem)
    (h : NEL mem.state.requestsBySession) :
    NEL (pollTranscripts fs nowMs mem).1.state.requestsBySession := by
  unfold pollTranscripts
  refine foldl_preserve
    (fun (acc : Mem × List Action) => NEL acc.1.state.requestsBySession) _ ?_ _ _ h
  intro b a hb
  try dsimp only
  apply pollSession_NEI
  exact hb

theorem permissionTimeoutFire_NEI (mem : Mem) (messageIdNum : Int)
    (session_id request_id : Option String) (sockSid : Nat)
    (h : NEL mem.state.requestsBySession) :
    NEL (permissionTimeoutFire mem messageIdNum session_id request_id
        sockSid).1.state.requestsBySession := by
  unfold permissionTimeoutFire
  try dsimp only
  repeat' split
  all_goals first
    | exact h
    | (apply removeFromDualIndex_NEI
       exact h)

theorem stopTimeoutFire_NEI (mem : Mem) (messageIdNum : Int) (request_id : Option String)
    (sockSid : Nat) (h : NEL mem.state.requestsBySession) :
    NEL (stopTimeoutFire mem messageIdNum request_id sockSid).1.state.requestsBySession := by
  unfold stopTimeoutFire
  try dsimp only
  repeat' split
  all_goals exact h

theorem handleSocketDisconnect_NEI (mem : Mem) (sockSid : Nat)
    (h : NEL mem.state.requestsBySession) :
    NEL (handleSocketDisconnect mem sockSid).1.state.requestsBySession := by
  unfold handleSocketDisconnect
  try dsimp only
  repeat' split
  all_goals try exact h
  all_goals
    exact foldl_preserve
      (fun (acc : Mem × List Action) => NEL acc.1.state.requestsBySession) _
      (fun b a hb => by
        try dsimp only
        repeat' split
        all_goals exact hb) _ _ h

theorem bootMem_NEI (ctx : DaemonCtx) (loaded : DaemonState) :
    NEL (bootMem ctx loaded).1.state.requestsBySession := by
  unfold bootMem
  try dsimp only
  split
  · exact NEL_nil
  · next hcond =>
    have hempty : loaded.requestsBySession = [] := by
      cases hb : loaded.requestsBySession.isEmpty with
      | true => exact List.isEmpty_iff.mp hb
      | false =>
        exfalso
        exact hcond (by rw [hb]; simp)
    intro kv hkv
    rw [hempty] at hkv
    cases hkv

/-- **C10.** In every reachable daemon state, `requestsBySession` never maps
a session id to an empty list of message ids: boot clears the index (or
starts from an empty one), insertion appends to a possibly new non-empty
list, and every removal path (`removeFromDualIndex`, session expiry)
deletes the session key outright when its list becomes empty. -/
theorem requests_by_session_never_maps_to_empty (ctx : DaemonCtx) (m : Mem)
    (hr : Reachable ctx m) :
    ∀ sid l, jget m.state.requestsBySession sid = some l → l ≠ ([] : List String) := by
  have key : NEL m.state.requestsBySession := by
    induction hr with
    | boot loaded => exact bootMem_NEI ctx loaded
    | step hprev hstep ih =>
      cases hstep with
      | permission fs msg sendResult b1 b2 nowIso sock =>
        exact handlePermissionRequest_NEI ctx fs _ msg sendResult b1 b2 nowIso sock ih
      | stopReq fs msg sendResult b1 b2 nowIso sock =>
        exact handleStopRequest_NEI ctx fs _ msg sendResult b1 b2 nowIso sock ih
      | enable sid rid sock => exact handleEnableAfk_NEI _ sid rid sock ih
      | disable sid rid sock => exact handleDisableAfk_NEI _ sid rid sock ih
      | tgTick fs now apiResult => exact telegramTick_NEI ctx fs _ now apiResult ih
      | transcriptTick fs nowMs => exact pollTranscripts_NEI fs nowMs _ ih
      | permTimeout mid sid rid sockSid =>
        exact permissionTimeoutFire_NEI _ mid sid rid sockSid ih
      | stopTimeout mid rid sockSid => exact stopTimeoutFire_NEI _ mid rid sockSid ih
      | socketDisconnect sockSid => exact handleSocketDisconnect_NEI _ sockSid ih
  intro sid l hget
  exact key (sid, l) (mem_of_jget_eq_some hget)

/-- Fixture for the C10 instance: a fresh permission message. -/
def c10Msg : PermMsg :=
  { session_id := some "S", terminal_id := some "T1", tool_name := some "Bash",
    message := some "npm test", transcript_path := none, cwd := some "/p",
    request_id := some "r1" }

/-- Fixture: the pairing `/start` update. -/
def c10Pair : TgUpdate :=
  { updateId := 1, message := some { chatId := some 1, text := some "/start" } }

def c10Boot : Mem := (bootMem {} {}).1

def c10M1 : Mem := (telegramTick {} {} c10Boot 0 (.ok [c10Pair])).1

def c10M2 : Mem := (handleEnableAfk c10M1 (some "S") (some "r0") { sid := 5 }).mem

def c10M3 : Mem := (handlePermissionRequest {} {} c10M2 c10Msg (.ok 100) 0 0 "t0" { sid := 7 }).mem

/-- Concrete instance of the C10 invariant: after boot, pairing, AFK enable
and one permission request, session `S` maps to `["100"]`, which the
invariant certifies non-empty. -/
theorem requests_by_session_never_maps_to_empty_witness :
    jget c10M3.state.requestsBySession "S" = some ["100"] ∧
      ("100" :: ([] : List String)) ≠ [] :=
  ⟨by decide,
   requests_by_session_never_maps_to_empty {} c10M3
     (Reachable.step
       (Reachable.step
         (Reachable.step (Reachable.boot {}) (DStep.tgTick c10Boot {} 0 (.ok [c10Pair])))
         (DStep.enable c10M1 (some "S") (some "r0") { sid := 5 }))
       (DStep.permission c10M2 {} c10Msg (.ok 100) 0 0 "t0" { sid := 7 }))
     "S" ["100"] (by decide)⟩

end Afk
